import Mathlib

/-!
Verification development for the kairo 3D scene-composition tool.

The definitions below are a shallow embedding of the TypeScript sources:

* `src/core/scene/types.ts` — scene document data model;
* the scene-editing module (pure document transformations:
  `deleteNode`, `updateNodePosition`, `updateNodeScale`, `updateNodeRotation`);
* `src/features/viewport/viewport-objects.ts` — primitive factory,
  ground alignment, light billboards;
* the lighting resolver (`applyMaterialsForLighting`);
* `src/features/viewport/viewport-display.ts` — display-mode and
  overlay engine;
* the viewport component (registries, the three synchronization passes,
  the `displayMode` watcher, `emitTransformChange`).

Conventions of the embedding:

* JavaScript `Map<string, T>` registries become insertion-ordered
  association lists `MapL T` with JS `Map` semantics (`set` replaces the
  value in place for an existing key, else appends; `delete` filters).
* Mutation of component refs becomes explicit state passing over
  `VState`; observable calls (selection updates, `emit`, renderable
  disposal, load starts) are recorded in a `SyncEvent` trace so that
  ordering claims can be stated.
* Numeric scalars are a parameter `α` (a `LinearOrderedField`); claims
  are instantiated at `ℚ` for executable witnesses and at `ℝ` where the
  source constant `RAD2DEG = 180 / Math.PI` matters.  The source only
  multiplies by its `DEG2RAD` constant, so that constant is passed as an
  explicit parameter to keep the embedding computable.
* A decoded imported asset (`loadImportedModelObject`) is an oracle
  argument `decode`; `await` suspension points matter only through the
  `isSyncingImports` re-entrancy flag, which the embedding tracks.
-/

namespace Kairo

/- ═══════════════════ Vectors ═══════════════════ -/

/-- A 3-component vector, the embedding of `Transform` / `THREE.Vector3`. -/
structure Vec3 (α : Type) where
  x : α
  y : α
  z : α
deriving DecidableEq, Repr

/- ═══════════════════ JS Map as an association list ═══════════════════ -/

/-- A JavaScript `Map<string, β>` as an insertion-ordered association list. -/
abbrev MapL (β : Type) : Type := List (String × β)

/-- The keys of a map, in insertion order. -/
def mapKeys {β : Type} (m : MapL β) : List String := m.map Prod.fst

/-- `Map.get`: the value stored at `k`, if any. -/
def mapGet {β : Type} (k : String) (m : MapL β) : Option β :=
  (m.find? (fun e => e.1 == k)).map Prod.snd

/-- `Map.has`. -/
def mapHas {β : Type} (k : String) (m : MapL β) : Bool :=
  (mapGet k m).isSome

/-- `Map.set`: replace in place when the key exists, otherwise append. -/
def mapSet {β : Type} (k : String) (v : β) (m : MapL β) : MapL β :=
  if mapHas k m then m.map (fun e => if e.1 == k then (k, v) else e) else m ++ [(k, v)]

/-- `Map.delete`. -/
def mapDelete {β : Type} (k : String) (m : MapL β) : MapL β :=
  m.filter (fun e => e.1 != k)

/-- Updating every value while keeping keys (a `forEach` that mutates values). -/
def mapValues {β γ : Type} (f : β → γ) (m : MapL β) : MapL γ :=
  m.map (fun e => (e.1, f e.2))

/- ═══════════════════ Scene document (core/scene/types.ts) ═══════════════════ -/

/-- `PrimitiveType` of the full variant of `core/scene/types.ts`. -/
inductive PrimitiveType : Type
  | box | sphere | cylinder | cone | torus | plane
deriving DecidableEq, Repr

/-- `SceneNode`: a mesh node of the document; `scale` and `rotation` are
optional (legacy documents omit them), rotation is stored in degrees. -/
structure SceneNode (α : Type) where
  id : String
  primitive : PrimitiveType
  position : Vec3 α
  scale : Option (Vec3 α)
  rotation : Option (Vec3 α)
deriving DecidableEq, Repr

/-- `LightNode`: a directional light anchored at a point, aimed at the origin. -/
structure LightNode (α : Type) where
  id : String
  position : Vec3 α
deriving DecidableEq, Repr

/-- `SceneEntity`.  `lights` is optional: legacy documents may omit the
array and every consumer defaults it to empty (`scene.lights ?? []`). -/
structure SceneEntity (α : Type) where
  id : String
  name : String
  createdAt : Int
  updatedAt : Int
  nodes : List (SceneNode α)
  lights : Option (List (LightNode α))
deriving DecidableEq, Repr

/- ═══════════ Scene editing layer (pure document transformations) ═══════════ -/

/-- `deleteNode(scene, nodeId)`.  `Date.now()` is passed explicitly as `now`. -/
def deleteNode {α : Type} (scene : SceneEntity α) (nodeId : String) (now : Int) :
    SceneEntity α :=
  { scene with
    updatedAt := now
    nodes := scene.nodes.filter (fun node => node.id != nodeId) }

/-- `updateNodePosition(scene, nodeId, position)`. -/
def updateNodePosition {α : Type} (scene : SceneEntity α) (nodeId : String)
    (position : Vec3 α) (now : Int) : SceneEntity α :=
  { scene with
    updatedAt := now
    nodes := scene.nodes.map (fun node =>
      if node.id == nodeId then { node with position := position } else node) }

/-- `updateNodeScale(scene, nodeId, scale)`. -/
def updateNodeScale {α : Type} (scene : SceneEntity α) (nodeId : String)
    (scale : Vec3 α) (now : Int) : SceneEntity α :=
  { scene with
    updatedAt := now
    nodes := scene.nodes.map (fun node =>
      if node.id == nodeId then { node with scale := some scale } else node) }

/-- `updateNodeRotation(scene, nodeId, rotation)`. -/
def updateNodeRotation {α : Type} (scene : SceneEntity α) (nodeId : String)
    (rotation : Vec3 α) (now : Int) : SceneEntity α :=
  { scene with
    updatedAt := now
    nodes := scene.nodes.map (fun node =>
      if node.id == nodeId then { node with rotation := some rotation } else node) }

/- ═══════════════════ Constants (features/viewport/constants.ts) ═══════════════════ -/

def PRIMITIVE_COLOR : Nat := 0x9099a4

def WIREFRAME_COLOR : Nat := 0x00ff00

def POLYGON_EDGE_COLOR : Nat := 0x1a1a1a

def IMPORTED_DEFAULT_COLOR : Nat := 0xa1a8b2

/- ═══════════════════ Materials ═══════════════════ -/

/-- The material classes that occur in the viewport. -/
inductive MaterialKind : Type
  | meshBasic | meshStandard | spriteMat | lineMat | pointsMat
deriving DecidableEq, Repr

/-- A THREE material, restricted to the properties the viewport reads or
writes.  `Option` fields model properties that only some material classes
carry (the JS code tests them with `in` / `instanceof`).  Scalar material
properties are exact rationals. -/
structure Material : Type where
  kind : MaterialKind
  color : Option Nat
  emissive : Option Nat
  transparent : Bool
  opacity : ℚ
  polygonOffset : Bool
  polygonOffsetFactor : Int
  polygonOffsetUnits : Int
  wireframe : Option Bool
  roughness : Option ℚ
  metalness : Option ℚ
  needsUpdate : Bool
deriving DecidableEq, Repr

/-- Class defaults shared by THREE materials. -/
def Material.base (kind : MaterialKind) (color : Option Nat) : Material :=
  { kind := kind
    color := color
    emissive := none
    transparent := false
    opacity := 1
    polygonOffset := false
    polygonOffsetFactor := 0
    polygonOffsetUnits := 0
    wireframe := none
    roughness := none
    metalness := none
    needsUpdate := false }

/-- `litMat(c)`: `new MeshStandardMaterial({ color: c, roughness: 0.5, metalness: 0.12 })`.
A standard material also carries `emissive` (default black) and `wireframe`. -/
def litMat (c : Nat) : Material :=
  { Material.base MaterialKind.meshStandard (some c) with
    emissive := some 0x000000
    wireframe := some false
    roughness := some 0.5
    metalness := some 0.12 }

/-- `unlitMat(c)`: `new MeshBasicMaterial({ color: c })`. -/
def unlitMat (c : Nat) : Material :=
  { Material.base MaterialKind.meshBasic (some c) with wireframe := some false }

/-- `mesh.material`: either a single material or an array of materials. -/
inductive MatSlot : Type
  | single (m : Material)
  | arr (ms : List Material)
deriving DecidableEq, Repr

/-- Apply a function to every material held by a slot (the
`instanceof Material` / `Array.isArray` dispatch of the source). -/
def MatSlot.mapEach (f : Material → Material) : MatSlot → MatSlot
  | MatSlot.single m => MatSlot.single (f m)
  | MatSlot.arr ms => MatSlot.arr (ms.map f)

/-- All materials held by a slot. -/
def MatSlot.mats : MatSlot → List Material
  | MatSlot.single m => [m]
  | MatSlot.arr ms => ms

/- ═══════════════════ Geometry and renderable objects ═══════════════════ -/

/-- Geometry produced by the primitive factory or an asset decoder.  The
vertex data itself is not inspected by any synchronization, display-mode
or overlay decision, so geometries are tracked by provenance. -/
inductive Geometry : Type
  | boxQuads
  | sphereGeo
  | cylinderGeo
  | coneGeo
  | torusLaidFlat
  | planeLaidFlat
  | importedGeo (tag : Nat)
deriving DecidableEq, Repr

/-- Kind tag of a renderable object. -/
inductive ObjKind : Type
  | mesh | sprite | group | other
deriving DecidableEq, Repr

/-- An axis-aligned bounding box (`THREE.Box3`). -/
structure Box3 (α : Type) where
  min : Vec3 α
  max : Vec3 α
deriving DecidableEq, Repr

/-- One renderable object (`THREE.Object3D` node): a mesh, sprite or group,
with the properties the viewport reads.  `localBounds` is the bounding box
the subtree rooted here would have at position zero; `Box3.setFromObject`
is its translate by the object's position. -/
structure ObjData (α : Type) where
  kind : ObjKind
  name : String
  material : Option MatSlot
  geometry : Option Geometry
  position : Vec3 α
  rotation : Vec3 α
  scaleV : Vec3 α
  localBounds : Option (Box3 α)
deriving DecidableEq, Repr

/-- An imported-asset renderable: its root object plus the list of proper
descendants in `traverse` order (`object.traverse` visits the root first,
then descendants). -/
structure ImportedObj (α : Type) where
  rootData : ObjData α
  descended : List (ObjData α)
deriving DecidableEq, Repr

/-- The `traverse` order of an imported object. -/
def ImportedObj.traverseData {α : Type} (o : ImportedObj α) : List (ObjData α) :=
  o.rootData :: o.descended

/-- A `THREE.DirectionalLight` as created by the light sync. -/
structure DirLight (α : Type) where
  color : Nat
  intensity : ℚ
  castShadow : Bool
  position : Vec3 α
  targetPosition : Vec3 α
deriving DecidableEq, Repr

/-- A child of `sceneLightsGroup`: either the ambient fill light or a
directional light registered for a document light id. -/
inductive SceneLightChild : Type
  | ambient (color : Nat) (intensity : ℚ)
  | dirChild (id : String)
deriving DecidableEq, Repr

/-- Whether a `sceneLightsGroup` child is an `AmbientLight`. -/
def SceneLightChild.isAmbient : SceneLightChild → Bool
  | SceneLightChild.ambient _ _ => true
  | SceneLightChild.dirChild _ => false

/-- The list of materials carried by a renderable (empty when the
material slot is absent). -/
def ObjData.matsList {α : Type} (d : ObjData α) : List Material :=
  (d.material.map MatSlot.mats).getD []

/- ═══════════ viewport-objects.ts ═══════════ -/

section ViewportObjects

variable {α : Type} [LinearOrderedField α]

instance : Add (Vec3 α) := ⟨fun a b => ⟨a.x + b.x, a.y + b.y, a.z + b.z⟩⟩

instance : Sub (Vec3 α) := ⟨fun a b => ⟨a.x - b.x, a.y - b.y, a.z - b.z⟩⟩

/-- `getPrimitiveYOffset(type)`: `0.5` for box/sphere/cylinder/cone,
`0.15` for torus, `0` for plane, default `0.5`.  The enum is closed, so
the `default` arm is unreachable from `PrimitiveType`. -/
def getPrimitiveYOffset (t : PrimitiveType) : α :=
  match t with
  | PrimitiveType.box => 1 / 2
  | PrimitiveType.sphere => 1 / 2
  | PrimitiveType.cylinder => 1 / 2
  | PrimitiveType.cone => 1 / 2
  | PrimitiveType.torus => 3 / 20
  | PrimitiveType.plane => 0

/-- `makeGeometryForPrimitive(type)`. -/
def makeGeometryForPrimitive (t : PrimitiveType) : Geometry :=
  match t with
  | PrimitiveType.box => Geometry.boxQuads
  | PrimitiveType.sphere => Geometry.sphereGeo
  | PrimitiveType.cylinder => Geometry.cylinderGeo
  | PrimitiveType.cone => Geometry.coneGeo
  | PrimitiveType.torus => Geometry.torusLaidFlat
  | PrimitiveType.plane => Geometry.planeLaidFlat

/-- `makeLightBillboard(lightId)`: a sprite named by the light id, with a
sprite material and scale `(0.8, 0.8, 1)`. -/
def makeLightBillboard (lightId : String) : ObjData α :=
  { kind := ObjKind.sprite
    name := lightId
    material := some (MatSlot.single
      { Material.base MaterialKind.spriteMat (some 0xffffff) with transparent := true })
    geometry := none
    position := ⟨0, 0, 0⟩
    rotation := ⟨0, 0, 0⟩
    scaleV := ⟨4 / 5, 4 / 5, 1⟩
    localBounds := none }

/-- `Box3.isEmpty()`. -/
def Box3.isEmpty (b : Box3 α) : Bool :=
  decide (b.max.x < b.min.x) || decide (b.max.y < b.min.y) || decide (b.max.z < b.min.z)

/-- `Box3.getCenter()`: `(min + max) * 0.5`. -/
def Box3.getCenter (b : Box3 α) : Vec3 α :=
  ⟨(b.min.x + b.max.x) / 2, (b.min.y + b.max.y) / 2, (b.min.z + b.max.z) / 2⟩

/-- Translate a box by a vector. -/
def Box3.translate (b : Box3 α) (v : Vec3 α) : Box3 α :=
  ⟨b.min + v, b.max + v⟩

/-- `new THREE.Box3().setFromObject(object)`: the subtree bounding box,
which is the position-independent bounds translated by the position.
`none` models the empty box obtained for an object with no geometry. -/
def setFromObject (o : ImportedObj α) : Option (Box3 α) :=
  o.rootData.localBounds.map (fun b => b.translate o.rootData.position)

/-- Replace the root position of an imported object. -/
def ImportedObj.withPosition (o : ImportedObj α) (p : Vec3 α) : ImportedObj α :=
  { o with rootData := { o.rootData with position := p } }

/-- `alignObjectToGround(object)`: center the bounding box in XZ (and Y),
then drop the object so the recomputed box has min-Y zero.  A degenerate
(empty) box leaves the object untouched. -/
def alignObjectToGround (o : ImportedObj α) : ImportedObj α :=
  match setFromObject o with
  | none => o
  | some box =>
    if box.isEmpty then o
    else
      let center := box.getCenter
      let o1 := o.withPosition (o.rootData.position - center)
      match setFromObject o1 with
      | none => o1
      | some adjusted =>
        o1.withPosition
          ⟨o1.rootData.position.x, o1.rootData.position.y - adjusted.min.y,
            o1.rootData.position.z⟩

end ViewportObjects

/- ═══════════ viewport lighting resolver (applyMaterialsForLighting) ═══════════ -/

section ViewportLighting

variable {α : Type} [LinearOrderedField α]

/-- Apply a data transformation to every node of an imported object, in
`traverse` order (root, then descendants). -/
def ImportedObj.mapData (f : ObjData α → ObjData α) (o : ImportedObj α) : ImportedObj α :=
  { rootData := f o.rootData, descended := o.descended.map f }

/-- The per-mesh body of the `primitiveMeshes.forEach` in
`applyMaterialsForLighting`: read the previous base color (default
`PRIMITIVE_COLOR` when the old material carries no `color`), then replace
the material with a lit or unlit one; the old material is disposed. -/
def relightPrimMesh (hasLights : Bool) (d : ObjData α) : ObjData α :=
  let c :=
    match d.material with
    | some (MatSlot.single m) => m.color.getD PRIMITIVE_COLOR
    | some (MatSlot.arr _) => PRIMITIVE_COLOR
    | none => PRIMITIVE_COLOR
  { d with material := some (MatSlot.single (if hasLights then litMat c else unlitMat c)) }

/-- The per-child body of the `object.traverse` in
`applyMaterialsForLighting`: only meshes with a material are touched; the
base color is read from the first material of the slot (default
`IMPORTED_DEFAULT_COLOR`). -/
def relightImportedData (hasLights : Bool) (d : ObjData α) : ObjData α :=
  if d.kind = ObjKind.mesh then
    match d.material with
    | none => d
    | some slot =>
      let c :=
        match slot.mats.head? with
        | some first => first.color.getD IMPORTED_DEFAULT_COLOR
        | none => IMPORTED_DEFAULT_COLOR
      { d with material := some (MatSlot.single (if hasLights then litMat c else unlitMat c)) }
  else d

/-- `applyMaterialsForLighting(hasLights, primitiveMeshes, importedObjects,
sceneLightsGroup)`: swap every mesh material to the lit or unlit class
preserving base color, and ensure/remove the ambient fill light
(`new AmbientLight(0xffffff, 0.3)`) in the group. -/
def applyMaterialsForLighting (hasLights : Bool)
    (primitiveMeshes : MapL (ObjData α)) (importedObjects : MapL (ImportedObj α))
    (sceneLightsGroup : List SceneLightChild) :
    MapL (ObjData α) × MapL (ImportedObj α) × List SceneLightChild :=
  let prim := mapValues (relightPrimMesh hasLights) primitiveMeshes
  let imp := mapValues (ImportedObj.mapData (relightImportedData hasLights)) importedObjects
  let group :=
    if hasLights && !(sceneLightsGroup.any SceneLightChild.isAmbient) then
      sceneLightsGroup ++ [SceneLightChild.ambient 0xffffff (3 / 10)]
    else if !hasLights then
      sceneLightsGroup.filter (fun c => !c.isAmbient)
    else
      sceneLightsGroup
  (prim, imp, group)

end ViewportLighting

/- ═══════════ viewport-display.ts ═══════════ -/

/-- The display-mode enum. -/
inductive DisplayMode : Type
  | solid | wireframe
deriving DecidableEq, Repr

/-- `EDGE_THRESHOLD_ANGLE`: degree threshold used with `EdgesGeometry` for
built-in primitives (imported meshes always use `0`). -/
def EDGE_THRESHOLD_ANGLE : Nat := 1

/-- `ensurePolygonOffset(mat)`. -/
def ensurePolygonOffset (mat : Material) : Material :=
  { mat with polygonOffset := true, polygonOffsetFactor := 1, polygonOffsetUnits := 1 }

/-- `applyModeToMaterial(mat, isWireframe, originalColor?)`: wireframe mode
drives opacity to the documented constant `0.03` with transparency on
(never the native wireframe flag); solid mode restores opacity `1.0`,
transparency off, and sets the color to `originalColor ?? PRIMITIVE_COLOR`
whenever the material has a color property. -/
def applyModeToMaterial (mat : Material) (isWireframe : Bool)
    (originalColor : Option Nat) : Material :=
  let m1 := ensurePolygonOffset mat
  let m2 := if m1.wireframe.isSome then { m1 with wireframe := some false } else m1
  let m3 :=
    if isWireframe then
      let mw := { m2 with transparent := true, opacity := 3 / 100 }
      if mw.emissive.isSome then { mw with emissive := some 0x000000 } else mw
    else
      let ms := { m2 with transparent := false, opacity := 1 }
      if ms.color.isSome then { ms with color := some (originalColor.getD PRIMITIVE_COLOR) }
      else ms
  { m3 with needsUpdate := true }

section ViewportDisplay

variable {α : Type} [LinearOrderedField α]

/-- The `primitiveMeshes.forEach` body of `applyDisplayMode`: every
material of the mesh gets the mode applied with `PRIMITIVE_COLOR` as the
original color. -/
def applyModeToPrimMesh (isWireframe : Bool) (d : ObjData α) : ObjData α :=
  let newSlot := d.material.map
    (MatSlot.mapEach (fun m => applyModeToMaterial m isWireframe (some PRIMITIVE_COLOR)))
  { d with material := newSlot }

/-- The `object.traverse` body of `applyDisplayMode`: only meshes are
touched, and no original color is passed. -/
def applyModeToImportedNode (isWireframe : Bool) (d : ObjData α) : ObjData α :=
  if d.kind == ObjKind.mesh then
    let newSlot := d.material.map
      (MatSlot.mapEach (fun m => applyModeToMaterial m isWireframe none))
    { d with material := newSlot }
  else d

/-- `applyDisplayMode(displayMode, primitiveMeshes, importedObjects)`:
primitives are re-colored with `PRIMITIVE_COLOR` as the original color;
imported meshes get no original color argument. -/
def applyDisplayMode (displayMode : DisplayMode)
    (primitiveMeshes : MapL (ObjData α)) (importedObjects : MapL (ImportedObj α)) :
    MapL (ObjData α) × MapL (ImportedObj α) :=
  let isWireframe := displayMode == DisplayMode.wireframe
  let prim := mapValues (applyModeToPrimMesh isWireframe) primitiveMeshes
  let imp := mapValues (ImportedObj.mapData (applyModeToImportedNode isWireframe))
    importedObjects
  (prim, imp)

/-- One `LineSegments2` child of the edge-helper group. -/
structure EdgeLine : Type where
  meshName : String
  threshold : Nat
  world : Bool
  color : Nat
deriving DecidableEq, Repr

/-- `addEdgeLinesForMesh`: a mesh whose geometry is a `BufferGeometry`
contributes exactly one line child (an `EdgesGeometry` always exposes a
position attribute, so the null-attribute early return never fires). -/
def addEdgeLinesForMesh (d : ObjData α) (color : Nat) (useWorldTransform : Bool)
    (thresholdAngle : Nat) : List EdgeLine :=
  match d.geometry with
  | none => []
  | some _ => [⟨d.name, thresholdAngle, useWorldTransform, color⟩]

/-- The edge lines contributed by an imported object: `traverse` visiting
every mesh child with threshold `0` in world transform. -/
def importedEdgeLines (o : ImportedObj α) (color : Nat) : List EdgeLine :=
  o.traverseData.flatMap (fun d =>
    if d.kind == ObjKind.mesh then addEdgeLinesForMesh d color true 0 else [])

/-- `updatePolygonEdgesDisplay(...)`: rebuilds the edge-helper group from
scratch (the previous children are disposed and cleared).  Returns the new
children list.  Note `hasSelection` uses JS truthiness of the selected id;
document ids are nonempty strings. -/
def updatePolygonEdgesDisplay (displayMode : DisplayMode) (showPolygonEdges : Bool)
    (selectedObjectId : Option String) (selectedIsPrimitive : Bool)
    (selectedIsLight : Bool) (primitiveMeshes : MapL (ObjData α))
    (importedObjects : MapL (ImportedObj α)) : List EdgeLine :=
  let showEdges := displayMode == DisplayMode.wireframe || showPolygonEdges
  if !showEdges then []
  else
    let color :=
      if displayMode == DisplayMode.wireframe then WIREFRAME_COLOR else POLYGON_EDGE_COLOR
    let hasSelection := selectedObjectId.isSome && !selectedIsLight
    let showAll := displayMode == DisplayMode.wireframe || !hasSelection
    if showAll then
      primitiveMeshes.flatMap
        (fun e => addEdgeLinesForMesh e.2 color false EDGE_THRESHOLD_ANGLE)
      ++ importedObjects.flatMap (fun e => importedEdgeLines e.2 color)
    else if selectedIsPrimitive then
      match selectedObjectId with
      | some sid =>
        match mapGet sid primitiveMeshes with
        | some d => addEdgeLinesForMesh d color false EDGE_THRESHOLD_ANGLE
        | none => []
      | none => []
    else
      match selectedObjectId with
      | some sid =>
        match mapGet sid importedObjects with
        | some o => importedEdgeLines o color
        | none => []
      | none => []

/-- One `THREE.Points` child of the vertex-helper group. -/
structure VertexPoints : Type where
  meshName : String
  world : Bool
deriving DecidableEq, Repr

/-- `addVertexPointsForMesh`: contributes one point cloud when the mesh
geometry (and hence its position attribute) exists. -/
def addVertexPointsForMesh (d : ObjData α) (useWorldTransform : Bool) : List VertexPoints :=
  match d.geometry with
  | none => []
  | some _ => [⟨d.name, useWorldTransform⟩]

/-- The vertex points contributed by an imported object. -/
def importedVertexPoints (o : ImportedObj α) : List VertexPoints :=
  o.traverseData.flatMap (fun d =>
    if d.kind == ObjKind.mesh then addVertexPointsForMesh d true else [])

/-- `updateVerticesDisplay(...)`: rebuilds the vertex-helper group. -/
def updateVerticesDisplay (showVertices : Bool) (selectedObjectId : Option String)
    (selectedIsPrimitive : Bool) (selectedIsLight : Bool)
    (primitiveMeshes : MapL (ObjData α)) (importedObjects : MapL (ImportedObj α)) :
    List VertexPoints :=
  if !showVertices then []
  else
    let hasSelection := selectedObjectId.isSome && !selectedIsLight
    if hasSelection then
      if selectedIsPrimitive then
        match selectedObjectId with
        | some sid =>
          match mapGet sid primitiveMeshes with
          | some d => addVertexPointsForMesh d false
          | none => []
        | none => []
      else
        match selectedObjectId with
        | some sid =>
          match mapGet sid importedObjects with
          | some o => importedVertexPoints o
          | none => []
        | none => []
    else
      primitiveMeshes.flatMap (fun e => addVertexPointsForMesh e.2 false)
      ++ importedObjects.flatMap (fun e => importedVertexPoints e.2)

end ViewportDisplay

/- ═══════════ Viewport component (state, events, synchronization) ═══════════ -/

/-- Observable calls made during a synchronization pass, in program order:
selection writes (`selectObject`), emissions of `select-object`, renderable
disposal (`disposeObject3D` / `DirectionalLight.dispose`), renderable
creation, and load-loop activity. -/
inductive SyncEvent : Type
  | selectSet (id : Option String)
  | emitSelect (id : Option String)
  | disposedObj (id : String)
  | disposedSceneLight (id : String)
  | createdPrim (id : String)
  | createdLightObj (id : String)
  | createdSceneLight (id : String)
  | startLoad (id : String)
  | importFailed (id : String)
deriving DecidableEq, Repr

/-- Truth of: every occurrence of `b` in the trace is preceded by an
occurrence of `a` (scanning left to right, seeing `b` first refutes,
seeing `a` first settles it). -/
def eventBefore (a b : SyncEvent) : List SyncEvent → Bool
  | [] => true
  | e :: rest => if e = b then false else if e = a then true else eventBefore a b rest

/-- The selection refs of the component: `selectedObject` (tracked by the
id of the held renderable), `currentSelectedId`, `isPrimitive`, `isLight`. -/
structure SelState : Type where
  selObj : Option String
  currentSelectedId : Option String
  isPrimitive : Bool
  isLight : Bool
deriving DecidableEq, Repr

/-- `selectObject(object, objectId, primitive, light)`: writes the four
selection refs, rebuilds the `BoxHelper` outline and attaches or detaches
the transform gizmo; the write is recorded as a `selectSet` event. -/
def selectObjectSt (object : Option String) (objectId : Option String)
    (primitive : Bool) (light : Bool) (_sel : SelState) : SelState × List SyncEvent :=
  (⟨object, objectId, primitive, light⟩, [SyncEvent.selectSet objectId])

/-- The C1 ordering package for one removed entry: the selection refs end
up fully cleared, the dispose call for the entry is in the trace, a
selection clear and a null emission are in the trace, and both precede
every dispose of that entry. -/
def clearedBeforeDispose (dev : SyncEvent) (sel : SelState) (tr : List SyncEvent) : Prop :=
  sel = ⟨none, none, false, false⟩ ∧
  dev ∈ tr ∧
  SyncEvent.selectSet none ∈ tr ∧
  SyncEvent.emitSelect none ∈ tr ∧
  eventBefore (SyncEvent.selectSet none) dev tr = true ∧
  eventBefore (SyncEvent.emitSelect none) dev tr = true

/-- The shared removal-path guard: clear selection and emit a null
selection when the entry being removed is the currently selected one. -/
def clearSelectionIfMatches (id : String) (sel : SelState) : SelState × List SyncEvent :=
  if sel.currentSelectedId = some id then
    let r := selectObjectSt none none false false sel
    (r.1, r.2 ++ [SyncEvent.emitSelect none])
  else (sel, [])

/-- Accumulator threaded through a removal loop: the registry being edited,
the scene-graph group the renderables sit in, and the selection refs. -/
structure RemovalAcc (β γ : Type) : Type where
  reg : MapL β
  group : γ
  sel : SelState

/-- Shared shape of the three removal loops (`forEach` over a registry
snapshot): entries whose id is still present in the document slice are
kept; stale entries optionally clear the selection, are removed from the
group, disposed, and deleted from the registry.  Deleting the visited key
does not disturb a JS `Map` iteration, so the loop runs over the snapshot
list. -/
def removeStaleEntries {β γ : Type} (removeFromGroup : String → γ → γ)
    (dispose : String → SyncEvent) (clearSel : Bool) (keepIds : List String) :
    List (String × β) → RemovalAcc β γ → RemovalAcc β γ × List SyncEvent
  | [], acc => (acc, [])
  | (id, _) :: rest, acc =>
    if keepIds.contains id then
      removeStaleEntries removeFromGroup dispose clearSel keepIds rest acc
    else
      let cs := if clearSel then clearSelectionIfMatches id acc.sel else (acc.sel, [])
      let acc1 : RemovalAcc β γ :=
        { reg := mapDelete id acc.reg
          group := removeFromGroup id acc.group
          sel := cs.1 }
      let r := removeStaleEntries removeFromGroup dispose clearSel keepIds rest acc1
      (r.1, cs.2 ++ dispose id :: r.2)

/-- `ImportedModelAsset` (id and display name; the content handle is
consumed only by the decode collaborator). -/
structure ImportedAsset : Type where
  id : String
  name : String
deriving DecidableEq, Repr

/-- The props consumed by the viewport component. -/
structure Props (α : Type) : Type where
  sceneData : SceneEntity α
  importedAssets : List ImportedAsset
  selectedObjectId : Option String
  selectedIsPrimitive : Bool
  selectedIsLight : Bool
deriving DecidableEq, Repr

/-- The mutable state of the viewport component that the synchronization
passes read or write: the four registries, the scene-graph groups, the
in-flight-load bookkeeping, the selection refs, and the display state. -/
structure VState (α : Type) : Type where
  primitiveMeshes : MapL (ObjData α)
  importedObjects : MapL (ImportedObj α)
  lightObjects : MapL (ObjData α)
  sceneLights : MapL (DirLight α)
  primitiveGroupIds : List String
  importedGroupIds : List String
  lightGroupIds : List String
  sceneLightsChildren : List SceneLightChild
  loadingImports : List String
  isSyncingImports : Bool
  selObj : Option String
  currentSelectedId : Option String
  isPrimitive : Bool
  isLight : Bool
  displayMode : DisplayMode
  showPolygonEdges : Bool
  showVertices : Bool
  edgeHelpers : List EdgeLine
  vertexHelpers : List VertexPoints
  polygonCountDirty : Bool
deriving DecidableEq, Repr

section ViewportComponent

variable {α : Type} [LinearOrderedField α]

/-- The selection refs of a component state. -/
def VState.selOf (st : VState α) : SelState :=
  ⟨st.selObj, st.currentSelectedId, st.isPrimitive, st.isLight⟩

/-- Write selection refs back into the component state. -/
def VState.setSel (st : VState α) (sel : SelState) : VState α :=
  { st with
    selObj := sel.selObj
    currentSelectedId := sel.currentSelectedId
    isPrimitive := sel.isPrimitive
    isLight := sel.isLight }

/-- `hasLights()`: `(props.sceneData.lights?.length ?? 0) > 0`. -/
def hasLightsFlag (props : Props α) : Bool :=
  decide (0 < (props.sceneData.lights.getD []).length)

/-- `refreshSceneDisplay()`: re-apply materials, display mode, vertex
overlay and polygon-edge overlay. -/
def refreshSceneDisplay (props : Props α) (st : VState α) : VState α :=
  let r1 := applyMaterialsForLighting (hasLightsFlag props)
    st.primitiveMeshes st.importedObjects st.sceneLightsChildren
  let r2 := applyDisplayMode st.displayMode r1.1 r1.2.1
  let vh := updateVerticesDisplay st.showVertices props.selectedObjectId
    props.selectedIsPrimitive props.selectedIsLight r2.1 r2.2
  let eh := updatePolygonEdgesDisplay st.displayMode st.showPolygonEdges
    props.selectedObjectId props.selectedIsPrimitive props.selectedIsLight r2.1 r2.2
  { st with
    primitiveMeshes := r2.1
    importedObjects := r2.2
    sceneLightsChildren := r1.2.2
    vertexHelpers := vh
    edgeHelpers := eh }

/-- `makePrimitiveMesh(nodeId, primitiveType)`: factory geometry plus a
`MeshBasicMaterial` in `PRIMITIVE_COLOR` with polygon offset. -/
def makePrimitiveMesh (nodeId : String) (primitiveType : PrimitiveType) : ObjData α :=
  { kind := ObjKind.mesh
    name := nodeId
    material := some (MatSlot.single
      { Material.base MaterialKind.meshBasic (some PRIMITIVE_COLOR) with
        polygonOffset := true
        polygonOffsetFactor := 1
        polygonOffsetUnits := 1
        wireframe := some false })
    geometry := some (makeGeometryForPrimitive primitiveType)
    position := ⟨0, 0, 0⟩
    rotation := ⟨0, 0, 0⟩
    scaleV := ⟨1, 1, 1⟩
    localBounds := none }

/-- The transform writes of the per-node body of `syncPrimitiveNodes`:
position plus the Y ground offset, scale defaulting to `(1,1,1)`, and
rotation converted from degrees through the module constant `DEG2RAD`
(passed here as `deg2rad`). -/
def applyNodeTransform (deg2rad : α) (node : SceneNode α) (m : ObjData α) : ObjData α :=
  let yOffset : α := getPrimitiveYOffset node.primitive
  let s := node.scale.getD ⟨1, 1, 1⟩
  let r := node.rotation.getD ⟨0, 0, 0⟩
  { m with
    position := ⟨node.position.x, node.position.y + yOffset, node.position.z⟩
    scaleV := ⟨s.x, s.y, s.z⟩
    rotation := ⟨r.x * deg2rad, r.y * deg2rad, r.z * deg2rad⟩ }

/-- The creation/update loop of `syncPrimitiveNodes` over the document
nodes: a missing renderable is created, registered and added to the group;
the (found or created) mesh then receives the document transform. -/
def createUpdatePrims (deg2rad : α) :
    List (SceneNode α) → VState α → VState α × List SyncEvent
  | [], st => (st, [])
  | node :: rest, st =>
    let found :=
      match mapGet node.id st.primitiveMeshes with
      | some m => (m, st, ([] : List SyncEvent))
      | none =>
        let m : ObjData α := makePrimitiveMesh node.id node.primitive
        (m,
         { st with
           primitiveMeshes := mapSet node.id m st.primitiveMeshes
           primitiveGroupIds := st.primitiveGroupIds ++ [node.id] },
         [SyncEvent.createdPrim node.id])
    let st2 := { found.2.1 with
      primitiveMeshes :=
        mapSet node.id (applyNodeTransform deg2rad node found.1) found.2.1.primitiveMeshes }
    let r := createUpdatePrims deg2rad rest st2
    (r.1, found.2.2 ++ r.2)

/-- The selection re-resolution tail of `syncPrimitiveNodes`: when a
primitive selection survives, re-fetch its (possibly recreated) mesh and
re-attach the selection to it. -/
def reselectPrimitive (st : VState α) : VState α × List SyncEvent :=
  if st.selObj.isSome && st.currentSelectedId.isSome && st.isPrimitive then
    match st.currentSelectedId with
    | some id =>
      match mapGet id st.primitiveMeshes with
      | some _ =>
        let s := selectObjectSt (some id) (some id) true false st.selOf
        (st.setSel s.1, s.2)
      | none => (st, ([] : List SyncEvent))
    | none => (st, ([] : List SyncEvent))
  else (st, ([] : List SyncEvent))

/-- `syncPrimitiveNodes()`: remove stale renderables (clearing the
selection first when it points at the removed entry), create/update the
rest, mark the polygon count dirty, refresh the display, and re-resolve a
surviving primitive selection. -/
def syncPrimitiveNodes (deg2rad : α) (props : Props α) (st : VState α) :
    VState α × List SyncEvent :=
  let nodeIds := props.sceneData.nodes.map SceneNode.id
  let rem := removeStaleEntries (fun id g => g.filter (fun gid => gid != id))
    SyncEvent.disposedObj true nodeIds st.primitiveMeshes
    ⟨st.primitiveMeshes, st.primitiveGroupIds, st.selOf⟩
  let st1 := ({ st with
    primitiveMeshes := rem.1.reg
    primitiveGroupIds := rem.1.group }).setSel rem.1.sel
  let cr := createUpdatePrims deg2rad props.sceneData.nodes st1
  let st3 := refreshSceneDisplay props { cr.1 with polygonCountDirty := true }
  let resel := reselectPrimitive st3
  (resel.1, rem.2 ++ cr.2 ++ resel.2)

/-- The creation/update loop of `syncLights`: ensure a billboard sprite in
`lightObjects`/`lightGroup` and a `DirectionalLight` in
`sceneLights`/`sceneLightsGroup`, then write the document position (the
directional light keeps its target at the origin). -/
def createUpdateLights : List (LightNode α) → VState α → VState α × List SyncEvent
  | [], st => (st, [])
  | light :: rest, st =>
    let foundObj :=
      match mapGet light.id st.lightObjects with
      | some obj => (obj, st, ([] : List SyncEvent))
      | none =>
        let obj : ObjData α := makeLightBillboard light.id
        (obj,
         { st with
           lightObjects := mapSet light.id obj st.lightObjects
           lightGroupIds := st.lightGroupIds ++ [light.id] },
         [SyncEvent.createdLightObj light.id])
    let st2 := { foundObj.2.1 with
      lightObjects :=
        mapSet light.id { foundObj.1 with position := light.position }
          foundObj.2.1.lightObjects }
    let foundLight :=
      match mapGet light.id st2.sceneLights with
      | some tl => (tl, st2, ([] : List SyncEvent))
      | none =>
        let tl : DirLight α :=
          { color := 0xffffff
            intensity := 1
            castShadow := false
            position := ⟨0, 1, 0⟩
            targetPosition := ⟨0, 0, 0⟩ }
        (tl,
         { st2 with
           sceneLights := mapSet light.id tl st2.sceneLights
           sceneLightsChildren :=
             st2.sceneLightsChildren ++ [SceneLightChild.dirChild light.id] },
         [SyncEvent.createdSceneLight light.id])
    let st4 := { foundLight.2.1 with
      sceneLights :=
        mapSet light.id
          { foundLight.1 with position := light.position, targetPosition := ⟨0, 0, 0⟩ }
          foundLight.2.1.sceneLights }
    let r := createUpdateLights rest st4
    (r.1, foundObj.2.2 ++ foundLight.2.2 ++ r.2)

/-- The selection re-resolution tail of `syncLights`. -/
def reselectLight (st : VState α) : VState α × List SyncEvent :=
  if st.selObj.isSome && st.currentSelectedId.isSome && st.isLight then
    match st.currentSelectedId with
    | some id =>
      match mapGet id st.lightObjects with
      | some _ =>
        let s := selectObjectSt (some id) (some id) false true st.selOf
        (st.setSel s.1, s.2)
      | none => (st, ([] : List SyncEvent))
    | none => (st, ([] : List SyncEvent))
  else (st, ([] : List SyncEvent))

/-- `syncLights()`: reconcile billboards and light sources against
`sceneData.lights ?? []`, re-apply materials and display mode, and
re-resolve a surviving light selection.  Only the billboard removal path
clears the selection; the light-source loop just disposes. -/
def syncLights (props : Props α) (st : VState α) : VState α × List SyncEvent :=
  let lights := props.sceneData.lights.getD []
  let lightIds := lights.map LightNode.id
  let rem1 := removeStaleEntries (fun id g => g.filter (fun gid => gid != id))
    SyncEvent.disposedObj true lightIds st.lightObjects
    ⟨st.lightObjects, st.lightGroupIds, st.selOf⟩
  let st1 := ({ st with
    lightObjects := rem1.1.reg
    lightGroupIds := rem1.1.group }).setSel rem1.1.sel
  let rem2 := removeStaleEntries
    (fun id g => g.filter (fun c => c != SceneLightChild.dirChild id))
    SyncEvent.disposedSceneLight false lightIds st1.sceneLights
    ⟨st1.sceneLights, st1.sceneLightsChildren, st1.selOf⟩
  let st2 := { st1 with sceneLights := rem2.1.reg, sceneLightsChildren := rem2.1.group }
  let cr := createUpdateLights lights st2
  let r1 := applyMaterialsForLighting (decide (0 < lights.length))
    cr.1.primitiveMeshes cr.1.importedObjects cr.1.sceneLightsChildren
  let r2 := applyDisplayMode cr.1.displayMode r1.1 r1.2.1
  let st5 := { cr.1 with
    primitiveMeshes := r2.1
    importedObjects := r2.2
    sceneLightsChildren := r1.2.2 }
  let resel := reselectLight st5
  (resel.1, rem1.2 ++ rem2.2 ++ cr.2 ++ resel.2)

/-- Rename the root object of a decoded model (`model.name = asset.name`). -/
def setRootName (nm : String) (o : ImportedObj α) : ImportedObj α :=
  { o with rootData := { o.rootData with name := nm } }

/-- The load loop of `syncImportedAssets`.  `decode` is the
`loadImportedModelObject` collaborator: `some` is a resolved model, `none`
a rejected decode (logged, asset left absent).  Each `await` suspends the
loop, but any overlapping invocation is rejected by the `isSyncingImports`
guard, so the loop is modelled atomically against the oracle. -/
def importLoadLoop (decode : ImportedAsset → Option (ImportedObj α)) (props : Props α) :
    List ImportedAsset → VState α → VState α × List SyncEvent
  | [], st => (st, [])
  | asset :: rest, st =>
    if mapHas asset.id st.importedObjects || st.loadingImports.contains asset.id then
      importLoadLoop decode props rest st
    else
      let st1 := { st with loadingImports := st.loadingImports ++ [asset.id] }
      let body :=
        match decode asset with
        | some loaded =>
          let model := alignObjectToGround (setRootName asset.name loaded)
          let stA := { st1 with
            importedObjects := mapSet asset.id model st1.importedObjects
            importedGroupIds := st1.importedGroupIds ++ [asset.id]
            polygonCountDirty := true }
          let stB := refreshSceneDisplay props stA
          match props.selectedObjectId with
          | some sid =>
            if !props.selectedIsPrimitive && sid == asset.id then
              let s := selectObjectSt (some asset.id) (some asset.id) false false stB.selOf
              (stB.setSel s.1, s.2)
            else (stB, ([] : List SyncEvent))
          | none => (stB, ([] : List SyncEvent))
        | none => (st1, [SyncEvent.importFailed asset.id])
      let st3 := { body.1 with
        loadingImports := body.1.loadingImports.filter (fun lid => lid != asset.id) }
      let r := importLoadLoop decode props rest st3
      (r.1, SyncEvent.startLoad asset.id :: (body.2 ++ r.2))

/-- `syncImportedAssets()`: re-entrancy guard on `isSyncingImports`, then
stale-asset removal (clearing a matching selection first, refreshing the
display if anything was removed), then the guarded load loop. -/
def syncImportedAssets (decode : ImportedAsset → Option (ImportedObj α))
    (props : Props α) (st : VState α) : VState α × List SyncEvent :=
  if st.isSyncingImports then (st, [])
  else
    let st0 := { st with isSyncingImports := true }
    let activeAssetIds := props.importedAssets.map ImportedAsset.id
    let removedAny := st0.importedObjects.any (fun e => !(activeAssetIds.contains e.1))
    let rem := removeStaleEntries (fun id g => g.filter (fun gid => gid != id))
      SyncEvent.disposedObj true activeAssetIds st0.importedObjects
      ⟨st0.importedObjects, st0.importedGroupIds, st0.selOf⟩
    let st1 := ({ st0 with
      importedObjects := rem.1.reg
      importedGroupIds := rem.1.group }).setSel rem.1.sel
    let st2 :=
      if removedAny then refreshSceneDisplay props { st1 with polygonCountDirty := true }
      else st1
    let r := importLoadLoop decode props props.importedAssets st2
    ({ r.1 with isSyncingImports := false }, rem.2 ++ r.2)

/-- The `watch(displayMode)` callback: entering wireframe force-resets the
polygon-edges and vertex toggles, then the display is refreshed. -/
def onDisplayModeChanged (props : Props α) (st : VState α) : VState α :=
  let st1 :=
    if st.displayMode = DisplayMode.wireframe then
      { st with showPolygonEdges := false, showVertices := false }
    else st
  refreshSceneDisplay props st1

/-- Writing the `displayMode` ref triggers the watcher. -/
def setDisplayMode (mode : DisplayMode) (props : Props α) (st : VState α) : VState α :=
  onDisplayModeChanged props { st with displayMode := mode }

/- ═══════════ Transform-gizmo change emission ═══════════ -/

/-- The gizmo modes of `TransformControls`. -/
inductive GizmoMode : Type
  | translate | rotate | scale
deriving DecidableEq, Repr

/-- The edit intents emitted back to the editing layer. -/
inductive EmitIntent (α : Type) : Type
  | updateNodePosition (id : String) (v : Vec3 α)
  | updateNodeRotation (id : String) (v : Vec3 α)
  | updateNodeScale (id : String) (v : Vec3 α)
  | updateLightPosition (id : String) (v : Vec3 α)
  | updateImportedPosition (id : String) (v : Vec3 α)
  | updateImportedRotation (id : String) (v : Vec3 α)
  | updateImportedScale (id : String) (v : Vec3 α)
deriving DecidableEq, Repr

/-- `emitTransformChange()`: reads the selection refs and the gizmo mode.
For primitives, translate subtracts the ground offset of the node looked
up in the document (default `0.5` when absent), rotate multiplies each
axis by the module constant `RAD2DEG = 180 / Math.PI` (here `rad2deg`),
scale is raw.  Lights emit only translate.  Imported objects emit all
three, raw except for the degree conversion. -/
def emitTransformChange (rad2deg : α) (nodes : List (SceneNode α))
    (selectedObject : Option (ObjData α)) (currentSelectedId : Option String)
    (transformControls : Option GizmoMode) (isPrimitive : Bool) (isLight : Bool) :
    Option (EmitIntent α) :=
  match selectedObject, currentSelectedId, transformControls with
  | some obj, some id, some mode =>
    if isPrimitive then
      let node := nodes.find? (fun n => n.id == id)
      let yOffset : α :=
        match node with
        | some n => getPrimitiveYOffset n.primitive
        | none => 1 / 2
      match mode with
      | GizmoMode.translate =>
        some (EmitIntent.updateNodePosition id
          ⟨obj.position.x, obj.position.y - yOffset, obj.position.z⟩)
      | GizmoMode.rotate =>
        some (EmitIntent.updateNodeRotation id
          ⟨obj.rotation.x * rad2deg, obj.rotation.y * rad2deg, obj.rotation.z * rad2deg⟩)
      | GizmoMode.scale =>
        some (EmitIntent.updateNodeScale id ⟨obj.scaleV.x, obj.scaleV.y, obj.scaleV.z⟩)
    else if isLight then
      match mode with
      | GizmoMode.translate =>
        some (EmitIntent.updateLightPosition id
          ⟨obj.position.x, obj.position.y, obj.position.z⟩)
      | _ => none
    else
      match mode with
      | GizmoMode.translate =>
        some (EmitIntent.updateImportedPosition id
          ⟨obj.position.x, obj.position.y, obj.position.z⟩)
      | GizmoMode.rotate =>
        some (EmitIntent.updateImportedRotation id
          ⟨obj.rotation.x * rad2deg, obj.rotation.y * rad2deg, obj.rotation.z * rad2deg⟩)
      | GizmoMode.scale =>
        some (EmitIntent.updateImportedScale id ⟨obj.scaleV.x, obj.scaleV.y, obj.scaleV.z⟩)
  | _, _, _ => none

end ViewportComponent

/- ═══════════════════ Concrete fixtures for executable witnesses ═══════════════════ -/

def wid1 : String := "obj-1"

def wid2 : String := "obj-2"

/-- An empty scene document. -/
def sceneEmpty : SceneEntity ℚ :=
  { id := "scene-1"
    name := "Scene"
    createdAt := 0
    updatedAt := 0
    nodes := []
    lights := some [] }

/-- The initial state of the viewport component refs and registries. -/
def initialVState : VState ℚ :=
  { primitiveMeshes := []
    importedObjects := []
    lightObjects := []
    sceneLights := []
    primitiveGroupIds := []
    importedGroupIds := []
    lightGroupIds := []
    sceneLightsChildren := []
    loadingImports := []
    isSyncingImports := false
    selObj := none
    currentSelectedId := none
    isPrimitive := false
    isLight := false
    displayMode := DisplayMode.solid
    showPolygonEdges := false
    showVertices := false
    edgeHelpers := []
    vertexHelpers := []
    polygonCountDirty := true }

/-- A basic material whose color is not the primitive default. -/
def wMatRed : Material := Material.base MaterialKind.meshBasic (some 0xff0000)

/-- An imported registry holding a single red mesh. -/
def wImpRed : MapL (ImportedObj ℚ) :=
  [(wid1,
    { rootData :=
        { kind := ObjKind.mesh
          name := wid1
          material := some (MatSlot.single wMatRed)
          geometry := some (Geometry.importedGeo 0)
          position := ⟨0, 0, 0⟩
          rotation := ⟨0, 0, 0⟩
          scaleV := ⟨1, 1, 1⟩
          localBounds := none }
      descended := [] })]

/-- A box whose extent is not centered at the origin. -/
def wBox : Box3 ℚ := ⟨⟨-1, 0, -1⟩, ⟨3, 2, 1⟩⟩

/-- An imported object away from the origin with bounds `wBox`. -/
def wAlignObj : ImportedObj ℚ :=
  { rootData :=
      { kind := ObjKind.group
        name := wid2
        material := none
        geometry := none
        position := ⟨5, 7, 9⟩
        rotation := ⟨0, 0, 0⟩
        scaleV := ⟨1, 1, 1⟩
        localBounds := some wBox }
    descended := [] }

/-- A state in which one primitive renderable exists and is selected. -/
def wStatePrim : VState ℚ :=
  { initialVState with
    primitiveMeshes := [(wid1, makePrimitiveMesh wid1 PrimitiveType.box)]
    primitiveGroupIds := [wid1]
    selObj := some wid1
    currentSelectedId := some wid1
    isPrimitive := true }

/-- Props for a document that no longer contains the selected object. -/
def wPropsEmpty : Props ℚ :=
  { sceneData := sceneEmpty
    importedAssets := []
    selectedObjectId := some wid1
    selectedIsPrimitive := true
    selectedIsLight := false }

/-- A torus node of the document, for transform-emission tests over ℝ. -/
def wNodeR : SceneNode ℝ :=
  { id := wid1
    primitive := PrimitiveType.torus
    position := ⟨0, 0, 0⟩
    scale := none
    rotation := none }

/-- A renderable away from the origin over ℝ. -/
def wObjR : ObjData ℝ :=
  { kind := ObjKind.mesh
    name := wid1
    material := none
    geometry := none
    position := ⟨1, 2, 3⟩
    rotation := ⟨1, 1, 1⟩
    scaleV := ⟨2, 2, 2⟩
    localBounds := none }

/-- A state mid-decode: the re-entrancy flag is set and a stale imported
object is registered. -/
def wStateBusy : VState ℚ :=
  { initialVState with
    isSyncingImports := true
    importedObjects := wImpRed
    importedGroupIds := [wid1] }

/-- A decode oracle that rejects every asset. -/
def decode0 : ImportedAsset → Option (ImportedObj ℚ) := fun _ => none

/-- A box node for reconciliation tests. -/
def wNodeQ : SceneNode ℚ :=
  { id := wid1
    primitive := PrimitiveType.box
    position := ⟨0, 0, 0⟩
    scale := none
    rotation := none }

/-- A light node for reconciliation tests. -/
def wLightQ : LightNode ℚ :=
  { id := wid2
    position := ⟨0, 5, 0⟩ }

/-- Props holding one node and one light, nothing selected. -/
def wPropsOne : Props ℚ :=
  { sceneData := { sceneEmpty with nodes := [wNodeQ], lights := some [wLightQ] }
    importedAssets := []
    selectedObjectId := none
    selectedIsPrimitive := false
    selectedIsLight := false }

/- ═══════════════════════════════════════════════════════════════════════
   Lemma layer
   ═══════════════════════════════════════════════════════════════════════ -/

section MapLemmas

variable {β : Type}

theorem mapGet_cons {k : String} {e : String × β} {m : MapL β} :
    mapGet k (e :: m) = if e.1 = k then some e.2 else mapGet k m := by
  by_cases h : e.1 = k
  · simp [mapGet, List.find?_cons, h]
  · simp [mapGet, List.find?_cons, h]

theorem mapHas_iff_mem {k : String} {m : MapL β} :
    mapHas k m = true ↔ k ∈ mapKeys m := by
  induction m with
  | nil => simp [mapHas, mapGet, mapKeys]
  | cons e m ih =>
    by_cases h : e.1 = k
    · simp [mapHas, mapGet_cons, h, mapKeys]
    · simp only [mapHas, mapGet_cons, h, if_false, mapKeys, List.map_cons, List.mem_cons]
      rw [← mapKeys]
      constructor
      · intro hh
        exact Or.inr (ih.1 hh)
      · intro hh
        rcases hh with hh | hh
        · exact absurd hh.symm h
        · exact ih.2 hh

theorem mapKeys_mapSet_of_has {k : String} {v : β} {m : MapL β}
    (h : mapHas k m = true) : mapKeys (mapSet k v m) = mapKeys m := by
  simp only [mapSet, h, if_true, mapKeys, List.map_map]
  apply List.map_congr_left
  intro e _
  by_cases hek : e.1 = k
  · simp [hek]
  · simp [Function.comp, hek]

theorem mapKeys_mapSet_of_not_has {k : String} {v : β} {m : MapL β}
    (h : mapHas k m = false) : mapKeys (mapSet k v m) = mapKeys m ++ [k] := by
  simp [mapSet, h, mapKeys]

theorem mapKeys_mapDelete {k : String} {m : MapL β} :
    mapKeys (mapDelete k m) = (mapKeys m).filter (fun x => x != k) := by
  induction m with
  | nil => rfl
  | cons e m ih =>
    by_cases h : e.1 = k
    · have hb : (e.1 != k) = false := by simp [h]
      simp [mapDelete, mapKeys, List.filter_cons, hb] at ih ⊢
      simpa [mapDelete, mapKeys] using ih
    · have hb : (e.1 != k) = true := by simp [h]
      simp only [mapDelete, List.filter_cons, hb, if_true, mapKeys, List.map_cons]
      rw [← mapKeys, ← mapDelete, ih]
      rfl

theorem mapKeys_mapValues {γ : Type} {f : β → γ} {m : MapL β} :
    mapKeys (mapValues f m) = mapKeys m := by
  simp [mapKeys, mapValues, List.map_map, Function.comp]

theorem nodup_mapKeys_mapDelete {k : String} {m : MapL β}
    (h : (mapKeys m).Nodup) : (mapKeys (mapDelete k m)).Nodup := by
  rw [mapKeys_mapDelete]
  exact h.filter _

theorem nodup_mapKeys_mapSet {k : String} {v : β} {m : MapL β}
    (h : (mapKeys m).Nodup) : (mapKeys (mapSet k v m)).Nodup := by
  by_cases hh : mapHas k m = true
  · rw [mapKeys_mapSet_of_has hh]; exact h
  · rw [mapKeys_mapSet_of_not_has (by simpa using hh)]
    simp only [List.nodup_append, List.nodup_cons, List.nodup_nil]
    refine ⟨h, by simp, ?_⟩
    intro a ha hb
    simp only [List.mem_singleton] at hb
    subst hb
    exact hh (mapHas_iff_mem.2 ha)

end MapLemmas

section EventLemmas

theorem eventBefore_append_left {a b : SyncEvent} {l1 l2 : List SyncEvent}
    (h1 : eventBefore a b l1 = true) (ha : a ∈ l1) :
    eventBefore a b (l1 ++ l2) = true := by
  induction l1 with
  | nil => cases ha
  | cons e l1 ih =>
    by_cases heb : e = b
    · subst heb
      simp [eventBefore] at h1
    · by_cases hea : e = a
      · subst hea
        simp [eventBefore, heb]
      · simp only [eventBefore, if_neg heb, if_neg hea] at h1
        rcases List.mem_cons.1 ha with h | h
        · exact absurd h.symm hea
        · simpa [eventBefore, heb, hea] using ih h1 h

theorem eventBefore_cons_of_ne {a b e : SyncEvent} {l : List SyncEvent}
    (heb : e ≠ b) (hea : e ≠ a) :
    eventBefore a b (e :: l) = eventBefore a b l := by
  simp [eventBefore, heb, hea]

end EventLemmas

section RemovalLemmas

variable {β γ : Type}

theorem removeStale_reg (rg : String → γ → γ) (d : String → SyncEvent)
    (cl : Bool) (keep : List String) (entries : List (String × β))
    (acc : RemovalAcc β γ) :
    (removeStaleEntries rg d cl keep entries acc).1.reg
      = acc.reg.filter
          (fun e => keep.contains e.1 || !((entries.map Prod.fst).contains e.1)) := by
  induction entries generalizing acc with
  | nil =>
    simp only [removeStaleEntries, List.map_nil, List.contains_nil, Bool.not_false,
      Bool.or_true]
    exact (List.filter_true _).symm
  | cons ev rest ih =>
    obtain ⟨id, v⟩ := ev
    by_cases hk : keep.contains id = true
    · simp only [removeStaleEntries, hk, if_true]
      rw [ih]
      apply List.filter_congr
      intro e _
      by_cases he : e.1 = id
      · rw [he, hk]
        simp
      · have h1 : ((((id, v) :: rest).map Prod.fst).contains e.1)
            = ((rest.map Prod.fst).contains e.1) := by
          rw [List.map_cons, List.contains_cons, beq_eq_false_iff_ne.2 he, Bool.false_or]
        rw [h1]
    · have hk0 : keep.contains id = false := by simpa using hk
      simp only [removeStaleEntries, hk0, Bool.false_eq_true, if_false]
      rw [ih]
      have h2 : mapDelete id acc.reg = acc.reg.filter (fun e => e.1 != id) := rfl
      rw [h2, List.filter_filter]
      apply List.filter_congr
      intro e _
      by_cases he : e.1 = id
      · rw [he, hk0]
        simp
      · have h1 : ((((id, v) :: rest).map Prod.fst).contains e.1)
            = ((rest.map Prod.fst).contains e.1) := by
          rw [List.map_cons, List.contains_cons, beq_eq_false_iff_ne.2 he, Bool.false_or]
        have h3 : (e.1 != id) = true := bne_iff_ne.2 he
        rw [h1, h3, Bool.and_true]

theorem removeStale_reg_self (rg : String → γ → γ) (d : String → SyncEvent)
    (cl : Bool) (keep : List String) (acc : RemovalAcc β γ) :
    (removeStaleEntries rg d cl keep acc.reg acc).1.reg
      = acc.reg.filter (fun e => keep.contains e.1) := by
  rw [removeStale_reg]
  apply List.filter_congr
  intro e he
  have hm : e.1 ∈ acc.reg.map Prod.fst := List.mem_map_of_mem _ he
  have hc : (acc.reg.map Prod.fst).contains e.1 = true := List.elem_eq_true_of_mem hm
  rw [hc]
  simp

theorem removeStale_sel_of_noclear (rg : String → γ → γ) (d : String → SyncEvent)
    (keep : List String) (entries : List (String × β)) (acc : RemovalAcc β γ) :
    (removeStaleEntries rg d false keep entries acc).1.sel = acc.sel := by
  induction entries generalizing acc with
  | nil => rfl
  | cons ev rest ih =>
    obtain ⟨id, v⟩ := ev
    by_cases hk : keep.contains id = true
    · simp only [removeStaleEntries, hk, if_true]
      exact ih _
    · have hk0 : keep.contains id = false := by simpa using hk
      simp only [removeStaleEntries, hk0, Bool.false_eq_true, if_false]
      exact ih _

theorem removeStale_sel_of_none (rg : String → γ → γ) (d : String → SyncEvent)
    (cl : Bool) (keep : List String) (entries : List (String × β))
    (acc : RemovalAcc β γ) (h : acc.sel.currentSelectedId = none) :
    (removeStaleEntries rg d cl keep entries acc).1.sel = acc.sel := by
  induction entries generalizing acc with
  | nil => rfl
  | cons ev rest ih =>
    obtain ⟨id, v⟩ := ev
    by_cases hk : keep.contains id = true
    · simp only [removeStaleEntries, hk, if_true]
      exact ih _ h
    · have hk0 : keep.contains id = false := by simpa using hk
      simp only [removeStaleEntries, hk0, Bool.false_eq_true, if_false]
      have hcs : (if cl = true then clearSelectionIfMatches id acc.sel else (acc.sel, []))
          = (acc.sel, []) := by
        cases cl
        · rfl
        · simp [clearSelectionIfMatches, h]
      rw [hcs]
      exact ih _ h

theorem removeStale_noop (rg : String → γ → γ) (d : String → SyncEvent)
    (cl : Bool) (keep : List String) (entries : List (String × β))
    (acc : RemovalAcc β γ)
    (hall : ∀ k ∈ entries.map Prod.fst, keep.contains k = true) :
    removeStaleEntries rg d cl keep entries acc = (acc, []) := by
  induction entries generalizing acc with
  | nil => rfl
  | cons ev rest ih =>
    obtain ⟨id, v⟩ := ev
    have hk : keep.contains id = true := hall id (by simp)
    simp only [removeStaleEntries, hk, if_true]
    exact ih _ (fun k hkm => hall k (by
      simp only [List.map_cons, List.mem_cons]
      exact Or.inr hkm))

end RemovalLemmas



section ClearBeforeDisposeLemmas

variable {β γ : Type}

theorem clearedBeforeDispose_append {dev : SyncEvent} {sel : SelState}
    {tr1 : List SyncEvent} (tr2 : List SyncEvent)
    (h : clearedBeforeDispose dev sel tr1) :
    clearedBeforeDispose dev sel (tr1 ++ tr2) := by
  obtain ⟨h0, h1, h2, h3, h4, h5⟩ := h
  exact ⟨h0, List.mem_append_left _ h1, List.mem_append_left _ h2,
    List.mem_append_left _ h3, eventBefore_append_left h4 h2,
    eventBefore_append_left h5 h3⟩

theorem removeStale_clears (rg : String → γ → γ) (d : String → SyncEvent)
    (keep : List String) (entries : List (String × β)) (acc : RemovalAcc β γ)
    (s : String)
    (hinj : Function.Injective d)
    (hd1 : ∀ x, d x ≠ SyncEvent.selectSet none)
    (hd2 : ∀ x, d x ≠ SyncEvent.emitSelect none)
    (hsel : acc.sel.currentSelectedId = some s)
    (hkeep : keep.contains s = false)
    (hnodup : (entries.map Prod.fst).Nodup)
    (hmem : s ∈ entries.map Prod.fst) :
    clearedBeforeDispose (d s)
      (removeStaleEntries rg d true keep entries acc).1.sel
      (removeStaleEntries rg d true keep entries acc).2 := by
  induction entries generalizing acc with
  | nil => simp at hmem
  | cons ev rest ih =>
    obtain ⟨id, v⟩ := ev
    rw [List.map_cons] at hmem
    rw [List.map_cons, List.nodup_cons] at hnodup
    by_cases hk : keep.contains id = true
    · have hid : id ≠ s := by
        intro h
        rw [h, hkeep] at hk
        cases hk
      have hmem2 : s ∈ rest.map Prod.fst := by
        rcases List.mem_cons.1 hmem with h | h
        · exact absurd h.symm hid
        · exact h
      simp only [removeStaleEntries, hk, if_true]
      exact ih _ hsel hnodup.2 hmem2
    · have hk0 : keep.contains id = false := by simpa using hk
      simp only [removeStaleEntries, hk0, Bool.false_eq_true, if_false, if_true]
      by_cases hid : id = s
      · subst hid
        have hcl : clearSelectionIfMatches id acc.sel
            = (⟨none, none, false, false⟩,
               [SyncEvent.selectSet none, SyncEvent.emitSelect none]) := by
          simp [clearSelectionIfMatches, hsel, selectObjectSt]
        rw [hcl]
        have hfinal :
            (removeStaleEntries rg d true keep rest
              { reg := mapDelete id acc.reg, group := rg id acc.group,
                sel := ⟨none, none, false, false⟩ }).1.sel
            = ⟨none, none, false, false⟩ := by
          rw [removeStale_sel_of_none]
          rfl
        refine ⟨hfinal, ?_, ?_, ?_, ?_, ?_⟩
        · simp
        · simp
        · simp
        · show eventBefore (SyncEvent.selectSet none) (d id)
            (SyncEvent.selectSet none :: SyncEvent.emitSelect none :: d id :: _) = true
          rw [eventBefore]
          rw [if_neg (Ne.symm (hd1 id)), if_pos rfl]
        · show eventBefore (SyncEvent.emitSelect none) (d id)
            (SyncEvent.selectSet none :: SyncEvent.emitSelect none :: d id :: _) = true
          rw [eventBefore, if_neg (Ne.symm (hd1 id)), if_neg (by simp)]
          rw [eventBefore, if_neg (Ne.symm (hd2 id)), if_pos rfl]
      · have hcl : clearSelectionIfMatches id acc.sel = (acc.sel, []) := by
          simp only [clearSelectionIfMatches, hsel]
          rw [if_neg (by simpa using fun h => hid h.symm)]
        rw [hcl]
        have hmem2 : s ∈ rest.map Prod.fst := by
          rcases List.mem_cons.1 hmem with h | h
          · exact absurd h.symm hid
          · exact h
        have hrec := ih (⟨mapDelete id acc.reg, rg id acc.group, acc.sel⟩ : RemovalAcc β γ)
          hsel hnodup.2 hmem2
        obtain ⟨h0, h1, h2, h3, h4, h5⟩ := hrec
        have hne : d id ≠ d s := fun h => hid (hinj h)
        refine ⟨h0, ?_, ?_, ?_, ?_, ?_⟩
        · simpa using Or.inr h1
        · simpa using Or.inr h2
        · simpa using Or.inr h3
        · show eventBefore (SyncEvent.selectSet none) (d s) (d id :: _) = true
          rw [eventBefore_cons_of_ne hne (hd1 id)]
          exact h4
        · show eventBefore (SyncEvent.emitSelect none) (d s) (d id :: _) = true
          rw [eventBefore_cons_of_ne hne (hd2 id)]
          exact h5

end ClearBeforeDisposeLemmas

section CreationLemmas

variable {α : Type} [LinearOrderedField α]

theorem mapKeys_filter_fst {β : Type} (p : String → Bool) (m : MapL β) :
    mapKeys (m.filter (fun e => p e.1)) = (mapKeys m).filter p := by
  induction m with
  | nil => rfl
  | cons e m ih =>
    by_cases h : p e.1 = true
    · simp only [List.filter_cons, h, if_true, mapKeys, List.map_cons]
      rw [← mapKeys, ← mapKeys, ih]
    · have h0 : p e.1 = false := by simpa using h
      simp only [List.filter_cons, h0, Bool.false_eq_true, if_false, mapKeys, List.map_cons]
      rw [← mapKeys, ← mapKeys, ih]

theorem createUpdatePrims_selOf (deg2rad : α) (nodes : List (SceneNode α))
    (st : VState α) : (createUpdatePrims deg2rad nodes st).1.selOf = st.selOf := by
  induction nodes generalizing st with
  | nil => rfl
  | cons node rest ih =>
    cases hg : mapGet node.id st.primitiveMeshes with
    | some m =>
      simp only [createUpdatePrims, hg]
      rw [ih]
      rfl
    | none =>
      simp only [createUpdatePrims, hg]
      rw [ih]
      rfl

theorem createUpdatePrims_events (deg2rad : α) (nodes : List (SceneNode α))
    (st : VState α) :
    ∀ e ∈ (createUpdatePrims deg2rad nodes st).2, ∃ id, e = SyncEvent.createdPrim id := by
  induction nodes generalizing st with
  | nil => intro e he; cases he
  | cons node rest ih =>
    intro e he
    cases hg : mapGet node.id st.primitiveMeshes with
    | some m =>
      simp only [createUpdatePrims, hg, List.nil_append] at he
      exact ih _ e he
    | none =>
      simp only [createUpdatePrims, hg, List.cons_append, List.nil_append,
        List.mem_cons] at he
      rcases he with he | he
      · exact ⟨node.id, he⟩
      · exact ih _ e he

theorem createUpdatePrims_keys_mem (deg2rad : α) (nodes : List (SceneNode α))
    (st : VState α) (k : String) :
    k ∈ mapKeys (createUpdatePrims deg2rad nodes st).1.primitiveMeshes
      ↔ k ∈ mapKeys st.primitiveMeshes ∨ k ∈ nodes.map SceneNode.id := by
  induction nodes generalizing st with
  | nil => simp [createUpdatePrims]
  | cons node rest ih =>
    cases hg : mapGet node.id st.primitiveMeshes with
    | some m =>
      have hhas : mapHas node.id st.primitiveMeshes = true := by
        simp [mapHas, hg]
      have hidmem : node.id ∈ mapKeys st.primitiveMeshes := mapHas_iff_mem.1 hhas
      simp only [createUpdatePrims, hg]
      rw [ih]
      have hkeys : mapKeys (mapSet node.id (applyNodeTransform deg2rad node m)
          st.primitiveMeshes) = mapKeys st.primitiveMeshes :=
        mapKeys_mapSet_of_has hhas
      rw [hkeys, List.map_cons, List.mem_cons]
      constructor
      · rintro (h | h)
        · exact Or.inl h
        · exact Or.inr (Or.inr h)
      · rintro (h | h | h)
        · exact Or.inl h
        · exact Or.inl (h ▸ hidmem)
        · exact Or.inr h
    | none =>
      have hhas : mapHas node.id st.primitiveMeshes = false := by
        simp [mapHas, hg]
      simp only [createUpdatePrims, hg]
      rw [ih]
      have h1 : mapKeys (mapSet node.id (makePrimitiveMesh node.id node.primitive)
          st.primitiveMeshes) = mapKeys st.primitiveMeshes ++ [node.id] :=
        mapKeys_mapSet_of_not_has hhas
      have hhas2 : mapHas node.id (mapSet node.id
          (makePrimitiveMesh node.id node.primitive) st.primitiveMeshes) = true := by
        rw [mapHas_iff_mem, h1]
        simp
      have h2 := @mapKeys_mapSet_of_has (ObjData α) node.id
        (applyNodeTransform deg2rad node (makePrimitiveMesh node.id node.primitive))
        (mapSet node.id (makePrimitiveMesh node.id node.primitive) st.primitiveMeshes)
        hhas2
      rw [h2, h1]
      simp only [List.mem_append, List.mem_singleton, List.map_cons, List.mem_cons]
      tauto

theorem createUpdatePrims_keys_nodup (deg2rad : α) (nodes : List (SceneNode α))
    (st : VState α) (h : (mapKeys st.primitiveMeshes).Nodup) :
    (mapKeys (createUpdatePrims deg2rad nodes st).1.primitiveMeshes).Nodup := by
  induction nodes generalizing st with
  | nil => exact h
  | cons node rest ih =>
    cases hg : mapGet node.id st.primitiveMeshes with
    | some m =>
      simp only [createUpdatePrims, hg]
      exact ih _ (nodup_mapKeys_mapSet h)
    | none =>
      simp only [createUpdatePrims, hg]
      exact ih _ (nodup_mapKeys_mapSet (nodup_mapKeys_mapSet h))

theorem createUpdatePrims_no_create (deg2rad : α) (nodes : List (SceneNode α))
    (st : VState α)
    (hall : ∀ n ∈ nodes, mapHas n.id st.primitiveMeshes = true) :
    (createUpdatePrims deg2rad nodes st).2 = [] := by
  induction nodes generalizing st with
  | nil => rfl
  | cons node rest ih =>
    have hhas : mapHas node.id st.primitiveMeshes = true := hall node (by simp)
    cases hg : mapGet node.id st.primitiveMeshes with
    | none => rw [mapHas, hg] at hhas; cases hhas
    | some m =>
      simp only [createUpdatePrims, hg, List.nil_append]
      apply ih
      intro n hn
      rw [mapHas_iff_mem, mapKeys_mapSet_of_has hhas]
      exact mapHas_iff_mem.1 (hall n (by simp [hn]))

end CreationLemmas


section SyncHelperLemmas

variable {α : Type}

theorem selOf_setSel (st : VState α) (sel : SelState) : (st.setSel sel).selOf = sel := rfl

theorem refresh_selOf (props : Props α) (st : VState α) :
    (refreshSceneDisplay props st).selOf = st.selOf := rfl

theorem refresh_primKeys (props : Props α) (st : VState α) :
    mapKeys (refreshSceneDisplay props st).primitiveMeshes
      = mapKeys st.primitiveMeshes := by
  simp only [refreshSceneDisplay, applyDisplayMode, applyMaterialsForLighting]
  rw [mapKeys_mapValues, mapKeys_mapValues]

theorem refresh_lightObjects (props : Props α) (st : VState α) :
    (refreshSceneDisplay props st).lightObjects = st.lightObjects := rfl

theorem refresh_sceneLights (props : Props α) (st : VState α) :
    (refreshSceneDisplay props st).sceneLights = st.sceneLights := rfl

theorem refresh_loadingImports (props : Props α) (st : VState α) :
    (refreshSceneDisplay props st).loadingImports = st.loadingImports := rfl

theorem reselectPrimitive_primMeshes (st : VState α) :
    (reselectPrimitive st).1.primitiveMeshes = st.primitiveMeshes := by
  rw [reselectPrimitive]
  by_cases h : (st.selObj.isSome && st.currentSelectedId.isSome && st.isPrimitive) = true
  · rw [if_pos h]
    cases hc : st.currentSelectedId with
    | none => rfl
    | some id =>
      dsimp only
      cases hg : mapGet id st.primitiveMeshes with
      | none => rfl
      | some m => rfl
  · rw [if_neg h]

theorem reselectPrimitive_of_selObj_none (st : VState α) (h : st.selObj = none) :
    reselectPrimitive st = (st, []) := by
  rw [reselectPrimitive]
  have h2 : st.selObj.isSome = false := by rw [h]; rfl
  rw [h2]
  rfl

theorem reselectPrimitive_events (st : VState α) :
    ∀ e ∈ (reselectPrimitive st).2, ∃ oid, e = SyncEvent.selectSet oid := by
  rw [reselectPrimitive]
  by_cases h : (st.selObj.isSome && st.currentSelectedId.isSome && st.isPrimitive) = true
  · rw [if_pos h]
    cases hc : st.currentSelectedId with
    | none => intro e he; cases he
    | some id =>
      dsimp only
      cases hg : mapGet id st.primitiveMeshes with
      | none => intro e he; cases he
      | some m =>
        intro e he
        simp only [selectObjectSt, List.mem_singleton] at he
        exact ⟨some id, he⟩
  · rw [if_neg h]
    intro e he
    cases he

theorem reselectLight_lightRegs (st : VState α) :
    (reselectLight st).1.lightObjects = st.lightObjects ∧
    (reselectLight st).1.sceneLights = st.sceneLights := by
  rw [reselectLight]
  by_cases h : (st.selObj.isSome && st.currentSelectedId.isSome && st.isLight) = true
  · rw [if_pos h]
    cases hc : st.currentSelectedId with
    | none => exact ⟨rfl, rfl⟩
    | some id =>
      dsimp only
      cases hg : mapGet id st.lightObjects with
      | none => exact ⟨rfl, rfl⟩
      | some m => exact ⟨rfl, rfl⟩
  · rw [if_neg h]
    exact ⟨rfl, rfl⟩

theorem reselectLight_of_selObj_none (st : VState α) (h : st.selObj = none) :
    reselectLight st = (st, []) := by
  rw [reselectLight]
  have h2 : st.selObj.isSome = false := by rw [h]; rfl
  rw [h2]
  rfl

theorem reselectLight_events (st : VState α) :
    ∀ e ∈ (reselectLight st).2, ∃ oid, e = SyncEvent.selectSet oid := by
  rw [reselectLight]
  by_cases h : (st.selObj.isSome && st.currentSelectedId.isSome && st.isLight) = true
  · rw [if_pos h]
    cases hc : st.currentSelectedId with
    | none => intro e he; cases he
    | some id =>
      dsimp only
      cases hg : mapGet id st.lightObjects with
      | none => intro e he; cases he
      | some m =>
        intro e he
        simp only [selectObjectSt, List.mem_singleton] at he
        exact ⟨some id, he⟩
  · rw [if_neg h]
    intro e he
    cases he

theorem createUpdateLights_selOf [LinearOrderedField α] (lights : List (LightNode α))
    (st : VState α) : (createUpdateLights lights st).1.selOf = st.selOf := by
  induction lights generalizing st with
  | nil => rfl
  | cons light rest ih =>
    simp only [createUpdateLights]
    cases hg : mapGet light.id st.lightObjects with
    | some obj =>
      dsimp only
      cases hg2 : mapGet light.id st.sceneLights with
      | some tl =>
        dsimp only
        rw [ih]
        rfl
      | none =>
        dsimp only
        rw [ih]
        rfl
    | none =>
      dsimp only
      cases hg2 : mapGet light.id st.sceneLights with
      | some tl =>
        dsimp only
        rw [ih]
        rfl
      | none =>
        dsimp only
        rw [ih]
        rfl

end SyncHelperLemmas


section ImportLoopLemmas

variable {α : Type} [LinearOrderedField α]

theorem importLoadLoop_selOf (decode : ImportedAsset → Option (ImportedObj α))
    (props : Props α) (assets : List ImportedAsset) (st : VState α)
    (h : ∀ asset ∈ assets, props.selectedObjectId ≠ some asset.id) :
    (importLoadLoop decode props assets st).1.selOf = st.selOf := by
  induction assets generalizing st with
  | nil => rfl
  | cons asset rest ih =>
    have hrest : ∀ a ∈ rest, props.selectedObjectId ≠ some a.id :=
      fun a ha => h a (List.mem_cons_of_mem _ ha)
    simp only [importLoadLoop]
    by_cases hskip :
        (mapHas asset.id st.importedObjects || st.loadingImports.contains asset.id) = true
    · rw [if_pos hskip]
      exact ih _ hrest
    · rw [if_neg hskip]
      cases hd : decode asset with
      | some loaded =>
        dsimp only
        cases hsid : props.selectedObjectId with
        | some sid =>
          dsimp only
          have hne : (sid == asset.id) = false := by
            have hh := h asset (by simp)
            rw [hsid] at hh
            have hne2 : sid ≠ asset.id := fun hgg => hh (by rw [hgg])
            simpa using hne2
          rw [hne, Bool.and_false]
          simp only [Bool.false_eq_true, if_false]
          rw [ih _ hrest]
          rfl
        | none =>
          dsimp only
          rw [ih _ hrest]
          rfl
      | none =>
        dsimp only
        rw [ih _ hrest]
        rfl

theorem importLoadLoop_no_restart (decode : ImportedAsset → Option (ImportedObj α))
    (props : Props α) (assets : List ImportedAsset) (st : VState α) (id : String)
    (hid : id ∈ st.loadingImports) :
    SyncEvent.startLoad id ∉ (importLoadLoop decode props assets st).2 := by
  induction assets generalizing st with
  | nil => intro h; cases h
  | cons asset rest ih =>
    simp only [importLoadLoop]
    by_cases hskip :
        (mapHas asset.id st.importedObjects || st.loadingImports.contains asset.id) = true
    · rw [if_pos hskip]
      exact ih _ hid
    · rw [if_neg hskip]
      have hnotin : asset.id ∉ st.loadingImports := by
        intro hmm
        have hc : st.loadingImports.contains asset.id = true :=
          List.elem_eq_true_of_mem hmm
        exact hskip (by rw [hc, Bool.or_true])
      have hne : asset.id ≠ id := fun hgg => hnotin (hgg ▸ hid)
      have hmemfilter : id ∈ (st.loadingImports ++ [asset.id]).filter
          (fun lid => lid != asset.id) := by
        rw [List.mem_filter]
        exact ⟨List.mem_append_left _ hid, bne_iff_ne.2 (Ne.symm hne)⟩
      cases hd : decode asset with
      | some loaded =>
        dsimp only
        cases hsid : props.selectedObjectId with
        | some sid =>
          dsimp only
          by_cases hcond : (!props.selectedIsPrimitive && sid == asset.id) = true
          · rw [if_pos hcond]
            dsimp only
            intro hmem
            rcases List.mem_cons.1 hmem with hh | hh
            · exact hne (by injection hh.symm)
            · rcases List.mem_append.1 hh with hh2 | hh2
              · simp [selectObjectSt] at hh2
              · exact ih _ hmemfilter hh2
          · rw [if_neg hcond]
            dsimp only
            intro hmem
            rcases List.mem_cons.1 hmem with hh | hh
            · exact hne (by injection hh.symm)
            · rcases List.mem_append.1 hh with hh2 | hh2
              · cases hh2
              · exact ih _ hmemfilter hh2
        | none =>
          dsimp only
          intro hmem
          rcases List.mem_cons.1 hmem with hh | hh
          · exact hne (by injection hh.symm)
          · rcases List.mem_append.1 hh with hh2 | hh2
            · cases hh2
            · exact ih _ hmemfilter hh2
      | none =>
        dsimp only
        intro hmem
        rcases List.mem_cons.1 hmem with hh | hh
        · exact hne (by injection hh.symm)
        · rcases List.mem_append.1 hh with hh2 | hh2
          · simp at hh2
          · exact ih _ hmemfilter hh2

end ImportLoopLemmas


section SyncClearLemmas

variable {α : Type} [LinearOrderedField α]

theorem syncPrim_tail_clears (deg2rad : α) (props : Props α) (stMid : VState α)
    (tr1 : List SyncEvent) (dev : SyncEvent)
    (h : clearedBeforeDispose dev stMid.selOf tr1) :
    clearedBeforeDispose dev
      ((reselectPrimitive (refreshSceneDisplay props
          { (createUpdatePrims deg2rad props.sceneData.nodes stMid).1 with
            polygonCountDirty := true })).1.selOf)
      (tr1 ++ (createUpdatePrims deg2rad props.sceneData.nodes stMid).2
        ++ (reselectPrimitive (refreshSceneDisplay props
            { (createUpdatePrims deg2rad props.sceneData.nodes stMid).1 with
              polygonCountDirty := true })).2) := by
  set cr := createUpdatePrims deg2rad props.sceneData.nodes stMid with hcrdef
  set st3 := refreshSceneDisplay props { cr.1 with polygonCountDirty := true } with hst3def
  have hcrsel : cr.1.selOf = stMid.selOf := by
    rw [hcrdef]
    exact createUpdatePrims_selOf _ _ _
  have hst3sel : st3.selOf = stMid.selOf := by
    rw [hst3def]
    show ({ cr.1 with polygonCountDirty := true } : VState α).selOf = _
    rw [show ({ cr.1 with polygonCountDirty := true } : VState α).selOf = cr.1.selOf from rfl]
    exact hcrsel
  have hso : st3.selObj = none := by
    have e1 : st3.selObj = st3.selOf.selObj := rfl
    rw [e1, hst3sel, h.1]
  rw [reselectPrimitive_of_selObj_none st3 hso]
  show clearedBeforeDispose dev st3.selOf (tr1 ++ cr.2 ++ [])
  rw [List.append_nil]
  obtain ⟨h0, h1, h2, h3, h4, h5⟩ := clearedBeforeDispose_append cr.2 h
  exact ⟨by rw [hst3sel, h.1], h1, h2, h3, h4, h5⟩

theorem syncPrimitiveNodes_clears (deg2rad : α) (props : Props α)
    (st : VState α) (s : String)
    (hsel : st.currentSelectedId = some s)
    (hnodup : (mapKeys st.primitiveMeshes).Nodup)
    (hmem : s ∈ mapKeys st.primitiveMeshes)
    (hnot : s ∉ props.sceneData.nodes.map SceneNode.id) :
    clearedBeforeDispose (SyncEvent.disposedObj s)
      (syncPrimitiveNodes deg2rad props st).1.selOf
      (syncPrimitiveNodes deg2rad props st).2 := by
  have hinj : Function.Injective SyncEvent.disposedObj := fun a b hab => by
    injection hab
  have hd1 : ∀ x, SyncEvent.disposedObj x ≠ SyncEvent.selectSet none := fun x hx => by
    cases hx
  have hd2 : ∀ x, SyncEvent.disposedObj x ≠ SyncEvent.emitSelect none := fun x hx => by
    cases hx
  have hkeep : (props.sceneData.nodes.map SceneNode.id).contains s = false := by
    cases hcb : (props.sceneData.nodes.map SceneNode.id).contains s with
    | false => rfl
    | true => exact absurd (List.mem_of_elem_eq_true hcb) hnot
  have hrem := removeStale_clears (fun id g => g.filter (fun gid => gid != id))
    SyncEvent.disposedObj (props.sceneData.nodes.map SceneNode.id) st.primitiveMeshes
    (⟨st.primitiveMeshes, st.primitiveGroupIds, st.selOf⟩ :
      RemovalAcc (ObjData α) (List String))
    s hinj hd1 hd2 hsel hkeep hnodup hmem
  have htail := syncPrim_tail_clears deg2rad props
    (({ st with
        primitiveMeshes := (removeStaleEntries
          (fun id (g : List String) => g.filter (fun gid => gid != id)) SyncEvent.disposedObj true
          (props.sceneData.nodes.map SceneNode.id) st.primitiveMeshes
          ⟨st.primitiveMeshes, st.primitiveGroupIds, st.selOf⟩).1.reg
        primitiveGroupIds := (removeStaleEntries
          (fun id (g : List String) => g.filter (fun gid => gid != id)) SyncEvent.disposedObj true
          (props.sceneData.nodes.map SceneNode.id) st.primitiveMeshes
          ⟨st.primitiveMeshes, st.primitiveGroupIds, st.selOf⟩).1.group }).setSel
      (removeStaleEntries
        (fun id (g : List String) => g.filter (fun gid => gid != id)) SyncEvent.disposedObj true
        (props.sceneData.nodes.map SceneNode.id) st.primitiveMeshes
        ⟨st.primitiveMeshes, st.primitiveGroupIds, st.selOf⟩).1.sel)
    (removeStaleEntries
      (fun id (g : List String) => g.filter (fun gid => gid != id)) SyncEvent.disposedObj true
      (props.sceneData.nodes.map SceneNode.id) st.primitiveMeshes
      ⟨st.primitiveMeshes, st.primitiveGroupIds, st.selOf⟩).2
    (SyncEvent.disposedObj s)
    (by
      rw [selOf_setSel]
      exact hrem)
  exact htail

end SyncClearLemmas


section SyncClearLemmas2

variable {α : Type} [LinearOrderedField α]

theorem syncLights_tail_clears (props : Props α) (stMid : VState α)
    (tr1 : List SyncEvent) (dev : SyncEvent)
    (h : clearedBeforeDispose dev stMid.selOf tr1) :
    (let lights := props.sceneData.lights.getD []
     let lightIds := lights.map LightNode.id
     let rem2 := removeStaleEntries
       (fun id (g : List SceneLightChild) =>
         g.filter (fun c => c != SceneLightChild.dirChild id))
       SyncEvent.disposedSceneLight false lightIds stMid.sceneLights
       ⟨stMid.sceneLights, stMid.sceneLightsChildren, stMid.selOf⟩
     let st2 : VState α :=
       { stMid with sceneLights := rem2.1.reg, sceneLightsChildren := rem2.1.group }
     let cr := createUpdateLights lights st2
     let r1 := applyMaterialsForLighting (decide (0 < lights.length))
       cr.1.primitiveMeshes cr.1.importedObjects cr.1.sceneLightsChildren
     let r2 := applyDisplayMode cr.1.displayMode r1.1 r1.2.1
     let st5 : VState α := { cr.1 with
       primitiveMeshes := r2.1
       importedObjects := r2.2
       sceneLightsChildren := r1.2.2 }
     let resel := reselectLight st5
     clearedBeforeDispose dev resel.1.selOf (tr1 ++ rem2.2 ++ cr.2 ++ resel.2)) := by
  dsimp only
  set lights := props.sceneData.lights.getD [] with hlights
  set rem2 := removeStaleEntries
    (fun id (g : List SceneLightChild) =>
      g.filter (fun c => c != SceneLightChild.dirChild id))
    SyncEvent.disposedSceneLight false (lights.map LightNode.id) stMid.sceneLights
    ⟨stMid.sceneLights, stMid.sceneLightsChildren, stMid.selOf⟩ with hrem2
  set st2 : VState α :=
    { stMid with sceneLights := rem2.1.reg, sceneLightsChildren := rem2.1.group } with hst2
  set cr := createUpdateLights lights st2 with hcr
  set r1 := applyMaterialsForLighting (decide (0 < lights.length))
    cr.1.primitiveMeshes cr.1.importedObjects cr.1.sceneLightsChildren with hr1
  set r2 := applyDisplayMode cr.1.displayMode r1.1 r1.2.1 with hr2
  set st5 : VState α := { cr.1 with
    primitiveMeshes := r2.1
    importedObjects := r2.2
    sceneLightsChildren := r1.2.2 } with hst5
  have hst2sel : st2.selOf = stMid.selOf := by
    rw [hst2]
    rfl
  have hcrsel : cr.1.selOf = stMid.selOf := by
    rw [hcr, createUpdateLights_selOf, hst2sel]
  have hst5sel : st5.selOf = stMid.selOf := by
    rw [hst5]
    show cr.1.selOf = stMid.selOf
    exact hcrsel
  have hso : st5.selObj = none := by
    have e1 : st5.selObj = st5.selOf.selObj := rfl
    rw [e1, hst5sel, h.1]
  rw [reselectLight_of_selObj_none st5 hso]
  show clearedBeforeDispose dev st5.selOf (tr1 ++ rem2.2 ++ cr.2 ++ [])
  rw [List.append_nil]
  obtain ⟨h0, h1, h2, h3, h4, h5⟩ :=
    clearedBeforeDispose_append cr.2
      (clearedBeforeDispose_append rem2.2 h)
  exact ⟨by rw [hst5sel, h.1], h1, h2, h3, h4, h5⟩

theorem syncLights_clears (props : Props α) (st : VState α) (s : String)
    (hsel : st.currentSelectedId = some s)
    (hnodup : (mapKeys st.lightObjects).Nodup)
    (hmem : s ∈ mapKeys st.lightObjects)
    (hnot : s ∉ (props.sceneData.lights.getD []).map LightNode.id) :
    clearedBeforeDispose (SyncEvent.disposedObj s)
      (syncLights props st).1.selOf
      (syncLights props st).2 := by
  have hinj : Function.Injective SyncEvent.disposedObj := fun a b hab => by
    injection hab
  have hd1 : ∀ x, SyncEvent.disposedObj x ≠ SyncEvent.selectSet none := fun x hx => by
    cases hx
  have hd2 : ∀ x, SyncEvent.disposedObj x ≠ SyncEvent.emitSelect none := fun x hx => by
    cases hx
  have hkeep : (((props.sceneData.lights.getD []).map LightNode.id)).contains s
      = false := by
    cases hcb : (((props.sceneData.lights.getD []).map LightNode.id)).contains s with
    | false => rfl
    | true => exact absurd (List.mem_of_elem_eq_true hcb) hnot
  have hrem := removeStale_clears
    (fun id (g : List String) => g.filter (fun gid => gid != id))
    SyncEvent.disposedObj ((props.sceneData.lights.getD []).map LightNode.id)
    st.lightObjects
    (⟨st.lightObjects, st.lightGroupIds, st.selOf⟩ :
      RemovalAcc (ObjData α) (List String))
    s hinj hd1 hd2 hsel hkeep hnodup hmem
  have htail := syncLights_tail_clears props
    (({ st with
        lightObjects := (removeStaleEntries
          (fun id (g : List String) => g.filter (fun gid => gid != id))
          SyncEvent.disposedObj true ((props.sceneData.lights.getD []).map LightNode.id)
          st.lightObjects ⟨st.lightObjects, st.lightGroupIds, st.selOf⟩).1.reg
        lightGroupIds := (removeStaleEntries
          (fun id (g : List String) => g.filter (fun gid => gid != id))
          SyncEvent.disposedObj true ((props.sceneData.lights.getD []).map LightNode.id)
          st.lightObjects ⟨st.lightObjects, st.lightGroupIds, st.selOf⟩).1.group }).setSel
      (removeStaleEntries
        (fun id (g : List String) => g.filter (fun gid => gid != id))
        SyncEvent.disposedObj true ((props.sceneData.lights.getD []).map LightNode.id)
        st.lightObjects ⟨st.lightObjects, st.lightGroupIds, st.selOf⟩).1.sel)
    (removeStaleEntries
      (fun id (g : List String) => g.filter (fun gid => gid != id))
      SyncEvent.disposedObj true ((props.sceneData.lights.getD []).map LightNode.id)
      st.lightObjects ⟨st.lightObjects, st.lightGroupIds, st.selOf⟩).2
    (SyncEvent.disposedObj s)
    (by
      rw [selOf_setSel]
      exact hrem)
  exact htail

theorem syncImports_tail_clears (decode : ImportedAsset → Option (ImportedObj α))
    (props : Props α) (stM : VState α) (removedAny : Bool)
    (tr1 : List SyncEvent) (dev : SyncEvent)
    (h : clearedBeforeDispose dev stM.selOf tr1)
    (hnosel : ∀ asset ∈ props.importedAssets, props.selectedObjectId ≠ some asset.id) :
    (let st2 : VState α :=
       if removedAny then
         refreshSceneDisplay props { stM with polygonCountDirty := true }
       else stM
     let r := importLoadLoop decode props props.importedAssets st2
     clearedBeforeDispose dev
       ({ r.1 with isSyncingImports := false } : VState α).selOf (tr1 ++ r.2)) := by
  dsimp only
  set st2 : VState α :=
    (if removedAny then
      refreshSceneDisplay props { stM with polygonCountDirty := true }
    else stM) with hst2
  set r := importLoadLoop decode props props.importedAssets st2 with hr
  have hst2sel : st2.selOf = stM.selOf := by
    rw [hst2]
    cases removedAny
    · rfl
    · rfl
  have hrsel : r.1.selOf = stM.selOf := by
    rw [hr, importLoadLoop_selOf decode props props.importedAssets st2 hnosel, hst2sel]
  have hfinal : ({ r.1 with isSyncingImports := false } : VState α).selOf = stM.selOf := by
    rw [show ({ r.1 with isSyncingImports := false } : VState α).selOf = r.1.selOf from rfl]
    exact hrsel
  obtain ⟨h0, h1, h2, h3, h4, h5⟩ := clearedBeforeDispose_append r.2 h
  exact ⟨by rw [hfinal, h.1], h1, h2, h3, h4, h5⟩

theorem syncImportedAssets_clears (decode : ImportedAsset → Option (ImportedObj α))
    (props : Props α) (st : VState α) (s : String)
    (hguard : st.isSyncingImports = false)
    (hsel : st.currentSelectedId = some s)
    (hnodup : (mapKeys st.importedObjects).Nodup)
    (hmem : s ∈ mapKeys st.importedObjects)
    (hnot : s ∉ props.importedAssets.map ImportedAsset.id)
    (hpsel : props.selectedObjectId = some s) :
    clearedBeforeDispose (SyncEvent.disposedObj s)
      (syncImportedAssets decode props st).1.selOf
      (syncImportedAssets decode props st).2 := by
  have hinj : Function.Injective SyncEvent.disposedObj := fun a b hab => by
    injection hab
  have hd1 : ∀ x, SyncEvent.disposedObj x ≠ SyncEvent.selectSet none := fun x hx => by
    cases hx
  have hd2 : ∀ x, SyncEvent.disposedObj x ≠ SyncEvent.emitSelect none := fun x hx => by
    cases hx
  have hkeep : ((props.importedAssets.map ImportedAsset.id)).contains s = false := by
    cases hcb : ((props.importedAssets.map ImportedAsset.id)).contains s with
    | false => rfl
    | true => exact absurd (List.mem_of_elem_eq_true hcb) hnot
  have hnosel : ∀ asset ∈ props.importedAssets, props.selectedObjectId ≠ some asset.id := by
    intro asset ha heq
    rw [hpsel] at heq
    have : s = asset.id := by injection heq
    exact hnot (this ▸ List.mem_map_of_mem _ ha)
  have hrem := removeStale_clears
    (fun id (g : List String) => g.filter (fun gid => gid != id))
    SyncEvent.disposedObj (props.importedAssets.map ImportedAsset.id)
    st.importedObjects
    (⟨st.importedObjects, st.importedGroupIds,
      ({ st with isSyncingImports := true } : VState α).selOf⟩ :
      RemovalAcc (ImportedObj α) (List String))
    s hinj hd1 hd2 hsel hkeep hnodup hmem
  simp only [syncImportedAssets, hguard, Bool.false_eq_true, if_false]
  have htail := syncImports_tail_clears decode props
    (({ ({ st with isSyncingImports := true } : VState α) with
        importedObjects := (removeStaleEntries
          (fun id (g : List String) => g.filter (fun gid => gid != id))
          SyncEvent.disposedObj true (props.importedAssets.map ImportedAsset.id)
          ({ st with isSyncingImports := true } : VState α).importedObjects
          ⟨({ st with isSyncingImports := true } : VState α).importedObjects,
            ({ st with isSyncingImports := true } : VState α).importedGroupIds,
            ({ st with isSyncingImports := true } : VState α).selOf⟩).1.reg
        importedGroupIds := (removeStaleEntries
          (fun id (g : List String) => g.filter (fun gid => gid != id))
          SyncEvent.disposedObj true (props.importedAssets.map ImportedAsset.id)
          ({ st with isSyncingImports := true } : VState α).importedObjects
          ⟨({ st with isSyncingImports := true } : VState α).importedObjects,
            ({ st with isSyncingImports := true } : VState α).importedGroupIds,
            ({ st with isSyncingImports := true } : VState α).selOf⟩).1.group }).setSel
      (removeStaleEntries
        (fun id (g : List String) => g.filter (fun gid => gid != id))
        SyncEvent.disposedObj true (props.importedAssets.map ImportedAsset.id)
        ({ st with isSyncingImports := true } : VState α).importedObjects
        ⟨({ st with isSyncingImports := true } : VState α).importedObjects,
          ({ st with isSyncingImports := true } : VState α).importedGroupIds,
          ({ st with isSyncingImports := true } : VState α).selOf⟩).1.sel)
    (({ st with isSyncingImports := true } : VState α).importedObjects.any
      (fun e => !((props.importedAssets.map ImportedAsset.id).contains e.1)))
    (removeStaleEntries
      (fun id (g : List String) => g.filter (fun gid => gid != id))
      SyncEvent.disposedObj true (props.importedAssets.map ImportedAsset.id)
      ({ st with isSyncingImports := true } : VState α).importedObjects
      ⟨({ st with isSyncingImports := true } : VState α).importedObjects,
        ({ st with isSyncingImports := true } : VState α).importedGroupIds,
        ({ st with isSyncingImports := true } : VState α).selOf⟩).2
    (SyncEvent.disposedObj s)
    (by
      rw [selOf_setSel]
      exact hrem)
    hnosel
  exact htail

end SyncClearLemmas2


/- ═══════════════════════════════════════════════════════════════════════
   Claims
   ═══════════════════════════════════════════════════════════════════════ -/

/-- C1: In every removal path of synchronization (primitive-node sync,
light sync, imported-asset sync), when the entry being removed is the
currently selected object, the selection is cleared (selection refs set to
null and a null selection emitted) strictly before `disposeObject3D` runs
on that entry renderable, and the selection id is null immediately after
the sync pass. -/
theorem claim_C1_selection_cleared_before_dispose :
    (∀ (deg2rad : ℚ) (props : Props ℚ) (st : VState ℚ) (s : String),
      st.currentSelectedId = some s →
      (mapKeys st.primitiveMeshes).Nodup →
      s ∈ mapKeys st.primitiveMeshes →
      s ∉ props.sceneData.nodes.map SceneNode.id →
      (syncPrimitiveNodes deg2rad props st).1.currentSelectedId = none ∧
      clearedBeforeDispose (SyncEvent.disposedObj s)
        (syncPrimitiveNodes deg2rad props st).1.selOf
        (syncPrimitiveNodes deg2rad props st).2) ∧
    (∀ (props : Props ℚ) (st : VState ℚ) (s : String),
      st.currentSelectedId = some s →
      (mapKeys st.lightObjects).Nodup →
      s ∈ mapKeys st.lightObjects →
      s ∉ (props.sceneData.lights.getD []).map LightNode.id →
      (syncLights props st).1.currentSelectedId = none ∧
      clearedBeforeDispose (SyncEvent.disposedObj s)
        (syncLights props st).1.selOf
        (syncLights props st).2) ∧
    (∀ (decode : ImportedAsset → Option (ImportedObj ℚ)) (props : Props ℚ)
        (st : VState ℚ) (s : String),
      st.isSyncingImports = false →
      st.currentSelectedId = some s →
      (mapKeys st.importedObjects).Nodup →
      s ∈ mapKeys st.importedObjects →
      s ∉ props.importedAssets.map ImportedAsset.id →
      props.selectedObjectId = some s →
      (syncImportedAssets decode props st).1.currentSelectedId = none ∧
      clearedBeforeDispose (SyncEvent.disposedObj s)
        (syncImportedAssets decode props st).1.selOf
        (syncImportedAssets decode props st).2) := by
  refine ⟨?_, ?_, ?_⟩
  · intro deg2rad props st s hsel hnodup hmem hnot
    have h := syncPrimitiveNodes_clears deg2rad props st s hsel hnodup hmem hnot
    refine ⟨?_, h⟩
    have e1 : (syncPrimitiveNodes deg2rad props st).1.currentSelectedId
        = (syncPrimitiveNodes deg2rad props st).1.selOf.currentSelectedId := rfl
    rw [e1, h.1]
  · intro props st s hsel hnodup hmem hnot
    have h := syncLights_clears props st s hsel hnodup hmem hnot
    refine ⟨?_, h⟩
    have e1 : (syncLights props st).1.currentSelectedId
        = (syncLights props st).1.selOf.currentSelectedId := rfl
    rw [e1, h.1]
  · intro decode props st s hguard hsel hnodup hmem hnot hpsel
    have h := syncImportedAssets_clears decode props st s hguard hsel hnodup hmem hnot hpsel
    refine ⟨?_, h⟩
    have e1 : (syncImportedAssets decode props st).1.currentSelectedId
        = (syncImportedAssets decode props st).1.selOf.currentSelectedId := rfl
    rw [e1, h.1]

/-- C1 witness: deleting the selected primitive from a one-object scene
clears the selection before disposal. -/
theorem claim_C1_witness :
    (syncPrimitiveNodes (1 : ℚ) wPropsEmpty wStatePrim).1.currentSelectedId = none ∧
    clearedBeforeDispose (SyncEvent.disposedObj wid1)
      (syncPrimitiveNodes (1 : ℚ) wPropsEmpty wStatePrim).1.selOf
      (syncPrimitiveNodes (1 : ℚ) wPropsEmpty wStatePrim).2 :=
  claim_C1_selection_cleared_before_dispose.1 1 wPropsEmpty wStatePrim wid1
    (by rfl) (by decide) (by decide) (by decide)


/-- C10: Whenever the display mode changes to wireframe, the watcher
force-resets both `showPolygonEdges` and `showVertices` to false; after
returning to solid (with no intermediate toggle edits) both toggles are
still off, regardless of their values before entering wireframe. -/
theorem claim_C10_wireframe_resets_overlay_toggles :
    ∀ (props : Props ℚ) (st : VState ℚ),
      (setDisplayMode DisplayMode.wireframe props st).showPolygonEdges = false ∧
      (setDisplayMode DisplayMode.wireframe props st).showVertices = false ∧
      (setDisplayMode DisplayMode.solid props
        (setDisplayMode DisplayMode.wireframe props st)).showPolygonEdges = false ∧
      (setDisplayMode DisplayMode.solid props
        (setDisplayMode DisplayMode.wireframe props st)).showVertices = false := by
  intro props st
  refine ⟨rfl, rfl, rfl, rfl⟩

/-- C9 (amended): the editing-layer functions applied with an id absent
from the document leave the nodes array (and every other content field)
unchanged and raise no error; only the `updatedAt` timestamp is refreshed
to the current time, so the returned document is not literally equal to
the input whenever the clock moved. -/
theorem claim_C9_stale_edits_touch_only_updatedAt :
    ∀ (scene : SceneEntity ℚ) (nodeId : String) (v : Vec3 ℚ) (now : Int),
      nodeId ∉ scene.nodes.map SceneNode.id →
      updateNodePosition scene nodeId v now = { scene with updatedAt := now } ∧
      updateNodeScale scene nodeId v now = { scene with updatedAt := now } ∧
      updateNodeRotation scene nodeId v now = { scene with updatedAt := now } ∧
      deleteNode scene nodeId now = { scene with updatedAt := now } := by
  intro scene nodeId v now hnot
  have hne : ∀ n ∈ scene.nodes, (n.id == nodeId) = false := by
    intro n hn
    have : n.id ≠ nodeId := by
      intro he
      exact hnot (he ▸ List.mem_map_of_mem _ hn)
    simpa using this
  have hmap : ∀ (f : SceneNode ℚ → SceneNode ℚ),
      scene.nodes.map (fun node => if node.id == nodeId then f node else node)
        = scene.nodes := by
    intro f
    have heq : scene.nodes.map (fun node => if node.id == nodeId then f node else node)
        = scene.nodes.map id :=
      List.map_congr_left (fun n hn => by rw [hne n hn]; rfl)
    rw [heq, List.map_id]
  refine ⟨?_, ?_, ?_, ?_⟩
  · rw [updateNodePosition, hmap]
  · rw [updateNodeScale, hmap]
  · rw [updateNodeRotation, hmap]
  · rw [deleteNode]
    have hf : scene.nodes.filter (fun node => node.id != nodeId)
        = scene.nodes.filter (fun _ => true) :=
      List.filter_congr (fun n hn => by
        rw [show (n.id != nodeId) = !(n.id == nodeId) from rfl, hne n hn]
        rfl)
    rw [hf, List.filter_true]

/-- C9 counterexample to the claim as stated: with an id absent from the
document, the returned document is not equal to the input, because
`updatedAt` is refreshed. -/
theorem claim_C9_counterexample :
    updateNodePosition sceneEmpty wid1 ⟨0, 0, 0⟩ 1 ≠ sceneEmpty := by
  decide

/-- C7 (amended): with `hasLights = false` every call leaves zero ambient
lights in the container; with `hasLights = true` a call on a container
holding at most one ambient light leaves exactly one (an ambient light is
added only when none is present), and a repeated call keeps exactly one. -/
theorem claim_C7_ambient_light_management :
    (∀ (p : MapL (ObjData ℚ)) (i : MapL (ImportedObj ℚ)) (c : List SceneLightChild),
      ((applyMaterialsForLighting false p i c).2.2.countP SceneLightChild.isAmbient) = 0) ∧
    (∀ (p : MapL (ObjData ℚ)) (i : MapL (ImportedObj ℚ)) (c : List SceneLightChild),
      c.countP SceneLightChild.isAmbient ≤ 1 →
      ((applyMaterialsForLighting true p i c).2.2.countP SceneLightChild.isAmbient) = 1) ∧
    (∀ (p p2 : MapL (ObjData ℚ)) (i i2 : MapL (ImportedObj ℚ)) (c : List SceneLightChild),
      c.countP SceneLightChild.isAmbient ≤ 1 →
      ((applyMaterialsForLighting true p2 i2
          (applyMaterialsForLighting true p i c).2.2).2.2.countP
        SceneLightChild.isAmbient) = 1) := by
  have hfalse : ∀ (p : MapL (ObjData ℚ)) (i : MapL (ImportedObj ℚ))
      (c : List SceneLightChild),
      ((applyMaterialsForLighting false p i c).2.2.countP SceneLightChild.isAmbient)
        = 0 := by
    intro p i c
    show ((c.filter (fun ch => !ch.isAmbient)).countP SceneLightChild.isAmbient) = 0
    rw [List.countP_eq_zero]
    intro a ha
    have := (List.mem_filter.1 ha).2
    simpa using this
  have htrue : ∀ (p : MapL (ObjData ℚ)) (i : MapL (ImportedObj ℚ))
      (c : List SceneLightChild),
      c.countP SceneLightChild.isAmbient ≤ 1 →
      ((applyMaterialsForLighting true p i c).2.2.countP SceneLightChild.isAmbient)
        = 1 := by
    intro p i c hle
    by_cases hany : c.any SceneLightChild.isAmbient = true
    · have h1 : 1 ≤ c.countP SceneLightChild.isAmbient := by
        rcases List.any_eq_true.1 hany with ⟨a, ha, hpa⟩
        calc 1 = [a].countP SceneLightChild.isAmbient := by simp [hpa]
        _ ≤ c.countP SceneLightChild.isAmbient := by
            rw [List.countP_eq_length_filter, List.countP_eq_length_filter]
            exact List.length_le_of_sublist
              (List.Sublist.filter _ (List.singleton_sublist.2 ha))
      have hcount : c.countP SceneLightChild.isAmbient = 1 := le_antisymm hle h1
      show ((if true && !c.any SceneLightChild.isAmbient then
          c ++ [SceneLightChild.ambient 0xffffff (3 / 10)]
        else if !true then c.filter (fun ch => !ch.isAmbient) else c).countP
          SceneLightChild.isAmbient) = 1
      rw [hany]
      simpa using hcount
    · have hany0 : c.any SceneLightChild.isAmbient = false := by simpa using hany
      have hcount : c.countP SceneLightChild.isAmbient = 0 := by
        rw [List.countP_eq_zero]
        intro a ha
        have := List.any_eq_false.1 hany0 a ha
        simpa using this
      show ((if true && !c.any SceneLightChild.isAmbient then
          c ++ [SceneLightChild.ambient 0xffffff (3 / 10)]
        else if !true then c.filter (fun ch => !ch.isAmbient) else c).countP
          SceneLightChild.isAmbient) = 1
      rw [hany0]
      simp [List.countP_append, hcount, SceneLightChild.isAmbient]
  refine ⟨hfalse, htrue, ?_⟩
  intro p p2 i i2 c hle
  exact htrue p2 i2 _ (le_of_eq (htrue p i c hle))

/-- C7 counterexample to the claim as stated: on a container already
holding two ambient lights, a `hasLights = true` call leaves two, not
exactly one (the quantification over every container state fails). -/
theorem claim_C7_counterexample :
    ((applyMaterialsForLighting true ([] : MapL (ObjData ℚ))
        ([] : MapL (ImportedObj ℚ))
        [SceneLightChild.ambient 0xffffff (3 / 10),
         SceneLightChild.ambient 0xffffff (3 / 10)]).2.2.countP
      SceneLightChild.isAmbient) = 2 := by
  decide

/-- C7 witness: on the empty container, a `hasLights = true` call creates
exactly one ambient light, a second call does not duplicate it, and a
`hasLights = false` call removes it. -/
theorem claim_C7_witness :
    ((applyMaterialsForLighting true ([] : MapL (ObjData ℚ))
        ([] : MapL (ImportedObj ℚ)) []).2.2.countP SceneLightChild.isAmbient) = 1 ∧
    ((applyMaterialsForLighting true ([] : MapL (ObjData ℚ))
        ([] : MapL (ImportedObj ℚ))
        (applyMaterialsForLighting true ([] : MapL (ObjData ℚ))
          ([] : MapL (ImportedObj ℚ)) []).2.2).2.2.countP
      SceneLightChild.isAmbient) = 1 ∧
    ((applyMaterialsForLighting false ([] : MapL (ObjData ℚ))
        ([] : MapL (ImportedObj ℚ))
        (applyMaterialsForLighting true ([] : MapL (ObjData ℚ))
          ([] : MapL (ImportedObj ℚ)) []).2.2).2.2.countP
      SceneLightChild.isAmbient) = 0 :=
  ⟨claim_C7_ambient_light_management.2.1 [] [] [] (by decide),
   claim_C7_ambient_light_management.2.2 [] [] [] [] [] (by decide),
   claim_C7_ambient_light_management.1 [] []
     (applyMaterialsForLighting true [] [] []).2.2⟩


/-- C9 witness: a stale-id edit on the empty scene at time 5. -/
theorem claim_C9_witness :
    updateNodePosition sceneEmpty wid1 ⟨1, 2, 3⟩ 5
        = { sceneEmpty with updatedAt := 5 } ∧
    updateNodeScale sceneEmpty wid1 ⟨1, 2, 3⟩ 5
        = { sceneEmpty with updatedAt := 5 } ∧
    updateNodeRotation sceneEmpty wid1 ⟨1, 2, 3⟩ 5
        = { sceneEmpty with updatedAt := 5 } ∧
    deleteNode sceneEmpty wid1 5 = { sceneEmpty with updatedAt := 5 } :=
  claim_C9_stale_edits_touch_only_updatedAt sceneEmpty wid1 ⟨1, 2, 3⟩ 5 (by decide)

section AlignmentLemmas

variable {α : Type} [LinearOrderedField α]

theorem Vec3_sub_x (a b : Vec3 α) : (a - b).x = a.x - b.x := rfl

theorem Vec3_sub_y (a b : Vec3 α) : (a - b).y = a.y - b.y := rfl

theorem Vec3_sub_z (a b : Vec3 α) : (a - b).z = a.z - b.z := rfl

theorem translate_min (b : Box3 α) (v : Vec3 α) : (b.translate v).min = b.min + v := rfl

theorem translate_max (b : Box3 α) (v : Vec3 α) : (b.translate v).max = b.max + v := rfl

theorem Vec3_add_x (a b : Vec3 α) : (a + b).x = a.x + b.x := rfl

theorem Vec3_add_y (a b : Vec3 α) : (a + b).y = a.y + b.y := rfl

theorem Vec3_add_z (a b : Vec3 α) : (a + b).z = a.z + b.z := rfl

theorem getCenter_x (b : Box3 α) : b.getCenter.x = (b.min.x + b.max.x) / 2 := rfl

theorem getCenter_y (b : Box3 α) : b.getCenter.y = (b.min.y + b.max.y) / 2 := rfl

theorem getCenter_z (b : Box3 α) : b.getCenter.z = (b.min.z + b.max.z) / 2 := rfl

theorem withPosition_position (o : ImportedObj α) (v : Vec3 α) :
    (o.withPosition v).rootData.position = v := rfl

theorem withPosition_withPosition (o : ImportedObj α) (a v : Vec3 α) :
    (o.withPosition a).withPosition v = o.withPosition v := rfl

theorem withPosition_localBounds (o : ImportedObj α) (v : Vec3 α) :
    (o.withPosition v).rootData.localBounds = o.rootData.localBounds := rfl

end AlignmentLemmas

/-- C8: ground alignment is idempotent, and after one call the world
bounding box has min-Y exactly zero and horizontal center exactly zero
(the spec asks for approximate zero; over exact arithmetic the value is
exact). -/
theorem claim_C8_ground_alignment_idempotent :
    ∀ (o : ImportedObj ℚ) (b : Box3 ℚ),
      o.rootData.localBounds = some b →
      b.isEmpty = false →
      alignObjectToGround (alignObjectToGround o) = alignObjectToGround o ∧
      ∃ box : Box3 ℚ, setFromObject (alignObjectToGround o) = some box ∧
        box.min.y = 0 ∧ box.getCenter.x = 0 ∧ box.getCenter.z = 0 := by
  intro o b hb hne
  have htrans : ∀ (v : Vec3 ℚ), (b.translate v).isEmpty = false := by
    intro v
    show (Box3.isEmpty ⟨b.min + v, b.max + v⟩) = false
    rw [show (Box3.isEmpty ⟨b.min + v, b.max + v⟩)
        = (decide (b.max.x + v.x < b.min.x + v.x) ||
           decide (b.max.y + v.y < b.min.y + v.y) ||
           decide (b.max.z + v.z < b.min.z + v.z)) from rfl]
    rw [show b.isEmpty = (decide (b.max.x < b.min.x) || decide (b.max.y < b.min.y)
        || decide (b.max.z < b.min.z)) from rfl] at hne
    simpa [add_lt_add_iff_right] using hne
  have hstep : ∀ (p : Vec3 ℚ),
      alignObjectToGround (o.withPosition p)
        = o.withPosition
            ⟨-((b.min.x + b.max.x) / 2), -b.min.y, -((b.min.z + b.max.z) / 2)⟩ := by
    intro p
    have hset : setFromObject (o.withPosition p) = some (b.translate p) := by
      rw [setFromObject, withPosition_localBounds, hb]
      rfl
    rw [alignObjectToGround, hset]
    dsimp only
    simp only [htrans p, Bool.false_eq_true, if_false]
    have hset2 : setFromObject
        ((o.withPosition p).withPosition
          ((o.withPosition p).rootData.position - (b.translate p).getCenter))
        = some (b.translate (p - (b.translate p).getCenter)) := by
      rw [setFromObject, withPosition_localBounds, withPosition_localBounds, hb]
      rfl
    split
    · next heq =>
        rw [hset2] at heq
        cases heq
    · next adjusted heq =>
        rw [hset2] at heq
        injection heq with heq2
        subst heq2
        rw [withPosition_withPosition]
        refine congrArg _ ?_
        simp only [Vec3.mk.injEq, withPosition_position, Vec3_sub_x, Vec3_sub_y, Vec3_sub_z,
          translate_min, translate_max, getCenter_x, getCenter_y, getCenter_z,
          Vec3_add_x, Vec3_add_y, Vec3_add_z]
        refine ⟨?_, ?_, ?_⟩ <;> ring
  have hfix : o = o.withPosition o.rootData.position := rfl
  have h1 : alignObjectToGround o
      = o.withPosition
          ⟨-((b.min.x + b.max.x) / 2), -b.min.y, -((b.min.z + b.max.z) / 2)⟩ := by
    conv_lhs => rw [hfix]
    exact hstep o.rootData.position
  constructor
  · rw [h1, hstep]
  · rw [h1]
    refine ⟨b.translate
      ⟨-((b.min.x + b.max.x) / 2), -b.min.y, -((b.min.z + b.max.z) / 2)⟩, ?_, ?_, ?_, ?_⟩
    · rw [setFromObject, withPosition_localBounds, hb]
      rfl
    · rw [translate_min, Vec3_add_y]
      ring
    · rw [getCenter_x, translate_min, translate_max, Vec3_add_x, Vec3_add_x]
      ring
    · rw [getCenter_z, translate_min, translate_max, Vec3_add_z, Vec3_add_z]
      ring

/-- C8 witness: aligning a concrete off-origin object. -/
theorem claim_C8_witness :
    alignObjectToGround (alignObjectToGround wAlignObj) = alignObjectToGround wAlignObj ∧
    ∃ box : Box3 ℚ, setFromObject (alignObjectToGround wAlignObj) = some box ∧
      box.min.y = 0 ∧ box.getCenter.x = 0 ∧ box.getCenter.z = 0 :=
  claim_C8_ground_alignment_idempotent wAlignObj wBox rfl (by decide)

section DisplayModeLemmas

theorem mats_mapEach (f : Material → Material) (sl : MatSlot) :
    (MatSlot.mapEach f sl).mats = sl.mats.map f := by
  cases sl
  · rfl
  · rfl

theorem applyModeToMaterial_wire_color (m : Material) (oc : Option Nat) :
    (applyModeToMaterial m true oc).color = m.color := by
  cases hw : m.wireframe <;> cases he : m.emissive <;>
    simp [applyModeToMaterial, ensurePolygonOffset, hw, he]

theorem applyModeToMaterial_solid_spec (m : Material) (oc : Option Nat) :
    (applyModeToMaterial m false oc).opacity = 1 ∧
    (applyModeToMaterial m false oc).transparent = false ∧
    (applyModeToMaterial m false oc).color
      = m.color.map (fun _ => oc.getD PRIMITIVE_COLOR) := by
  cases hw : m.wireframe <;> cases hc : m.color <;>
    simp [applyModeToMaterial, ensurePolygonOffset, hw, hc]

theorem matsList_setSlot {α : Type} (d : ObjData α) (g : Material → Material) :
    (ObjData.matsList
      { d with material := d.material.map (MatSlot.mapEach g) })
      = d.matsList.map g := by
  cases hm : d.material with
  | none => simp [ObjData.matsList, hm]
  | some sl => simp [ObjData.matsList, hm, mats_mapEach]

end DisplayModeLemmas

/-- C4 (amended): applying wireframe then solid restores opacity exactly
1.0 and transparency off for every material of every mesh in both
registries; the color, however, is reset to `originalColor ?? PRIMITIVE_COLOR`
(the primitive default for primitive meshes, and the same default for
imported meshes because no original color is passed for them) — it equals
the color held before the toggle only when that color was the default. -/
theorem claim_C4_wireframe_roundtrip_restores :
    (∀ (m : Material) (oc : Option Nat),
      (applyModeToMaterial (applyModeToMaterial m true oc) false oc).opacity = 1 ∧
      (applyModeToMaterial (applyModeToMaterial m true oc) false oc).transparent = false ∧
      (applyModeToMaterial (applyModeToMaterial m true oc) false oc).color
        = m.color.map (fun _ => oc.getD PRIMITIVE_COLOR)) ∧
    (∀ (p : MapL (ObjData ℚ)) (i : MapL (ImportedObj ℚ)),
      ((applyDisplayMode DisplayMode.solid
          (applyDisplayMode DisplayMode.wireframe p i).1
          (applyDisplayMode DisplayMode.wireframe p i).2).1.all
        (fun e => e.2.matsList.all
          (fun m => decide (m.opacity = 1) && decide (m.transparent = false) &&
            decide (m.color = none ∨ m.color = some PRIMITIVE_COLOR)))) = true) ∧
    (∀ (p : MapL (ObjData ℚ)) (i : MapL (ImportedObj ℚ)),
      ((applyDisplayMode DisplayMode.solid
          (applyDisplayMode DisplayMode.wireframe p i).1
          (applyDisplayMode DisplayMode.wireframe p i).2).2.all
        (fun e => e.2.traverseData.all
          (fun d => !(d.kind == ObjKind.mesh) || d.matsList.all
            (fun m => decide (m.opacity = 1) && decide (m.transparent = false) &&
              decide (m.color = none ∨ m.color = some PRIMITIVE_COLOR))))) = true) := by
  have hpure : ∀ (m : Material) (oc : Option Nat),
      (applyModeToMaterial (applyModeToMaterial m true oc) false oc).opacity = 1 ∧
      (applyModeToMaterial (applyModeToMaterial m true oc) false oc).transparent = false ∧
      (applyModeToMaterial (applyModeToMaterial m true oc) false oc).color
        = m.color.map (fun _ => oc.getD PRIMITIVE_COLOR) := by
    intro m oc
    obtain ⟨h1, h2, h3⟩ := applyModeToMaterial_solid_spec (applyModeToMaterial m true oc) oc
    refine ⟨h1, h2, ?_⟩
    rw [h3, applyModeToMaterial_wire_color]
  have hmatprop : ∀ (m0 : Material) (oc : Option Nat),
      oc.getD PRIMITIVE_COLOR = PRIMITIVE_COLOR →
      (decide ((applyModeToMaterial (applyModeToMaterial m0 true oc) false oc).opacity = 1)
        && decide ((applyModeToMaterial (applyModeToMaterial m0 true oc) false oc).transparent
            = false)
        && decide ((applyModeToMaterial (applyModeToMaterial m0 true oc) false oc).color = none
            ∨ (applyModeToMaterial (applyModeToMaterial m0 true oc) false oc).color
              = some PRIMITIVE_COLOR)) = true := by
    intro m0 oc hoc
    obtain ⟨h1, h2, h3⟩ := hpure m0 oc
    rw [h1, h2, h3]
    cases m0.color
    · simp
    · simp [hoc]
  have hwf : (DisplayMode.wireframe == DisplayMode.wireframe) = true := rfl
  have hsol : (DisplayMode.solid == DisplayMode.wireframe) = false := rfl
  have hprimmats : ∀ (w : Bool) (d : ObjData ℚ),
      (applyModeToPrimMesh w d).matsList
        = d.matsList.map (fun m => applyModeToMaterial m w (some PRIMITIVE_COLOR)) := by
    intro w d
    exact matsList_setSlot d _
  have hkindimp : ∀ (w : Bool) (d : ObjData ℚ),
      (applyModeToImportedNode w d).kind = d.kind := by
    intro w d
    rw [applyModeToImportedNode]
    by_cases hk : (d.kind == ObjKind.mesh) = true
    · rw [if_pos hk]
    · rw [if_neg hk]
  have himpmesh : ∀ (w : Bool) (d : ObjData ℚ), (d.kind == ObjKind.mesh) = true →
      (applyModeToImportedNode w d).matsList
        = d.matsList.map (fun m => applyModeToMaterial m w none) := by
    intro w d hk
    rw [applyModeToImportedNode, if_pos hk]
    exact matsList_setSlot d _
  have himpnot : ∀ (w : Bool) (d : ObjData ℚ), (d.kind == ObjKind.mesh) = false →
      applyModeToImportedNode w d = d := by
    intro w d hk
    rw [applyModeToImportedNode, hk]
    rfl
  refine ⟨hpure, ?_, ?_⟩
  · intro p i
    rw [List.all_eq_true]
    intro e he
    have he2 : e ∈ mapValues (applyModeToPrimMesh (DisplayMode.solid == DisplayMode.wireframe))
        (mapValues (applyModeToPrimMesh (DisplayMode.wireframe == DisplayMode.wireframe)) p) :=
      he
    rcases List.mem_map.1 he2 with ⟨e1, he1, hee⟩
    rcases List.mem_map.1 he1 with ⟨e0, _, hee1⟩
    rw [List.all_eq_true]
    intro m hm
    subst hee
    subst hee1
    rw [show ((e0.1, applyModeToPrimMesh (DisplayMode.wireframe == DisplayMode.wireframe)
        e0.2) : String × ObjData ℚ).2
        = applyModeToPrimMesh true e0.2 from by rw [hwf]] at hm
    rw [show (applyModeToPrimMesh (DisplayMode.solid == DisplayMode.wireframe)
        (applyModeToPrimMesh true e0.2))
        = applyModeToPrimMesh false (applyModeToPrimMesh true e0.2) from by rw [hsol]] at hm
    rw [hprimmats, hprimmats, List.map_map] at hm
    rcases List.mem_map.1 hm with ⟨m0, _, hmm⟩
    subst hmm
    exact hmatprop m0 (some PRIMITIVE_COLOR) rfl
  · intro p i
    rw [List.all_eq_true]
    intro e he
    have he2 : e ∈ mapValues
        (ImportedObj.mapData (applyModeToImportedNode (DisplayMode.solid == DisplayMode.wireframe)))
        (mapValues (ImportedObj.mapData
          (applyModeToImportedNode (DisplayMode.wireframe == DisplayMode.wireframe))) i) := he
    rcases List.mem_map.1 he2 with ⟨e1, he1, hee⟩
    rcases List.mem_map.1 he1 with ⟨e0, _, hee1⟩
    rw [List.all_eq_true]
    intro d hd
    subst hee
    subst hee1
    have htrav : ∀ (h : ObjData ℚ → ObjData ℚ) (o : ImportedObj ℚ),
        (ImportedObj.mapData h o).traverseData = o.traverseData.map h := fun h o => rfl
    rw [show ((e0.1, ImportedObj.mapData
        (applyModeToImportedNode (DisplayMode.wireframe == DisplayMode.wireframe))
        e0.2) : String × ImportedObj ℚ).2
        = ImportedObj.mapData (applyModeToImportedNode true) e0.2 from by rw [hwf]] at hd
    rw [show (ImportedObj.mapData
        (applyModeToImportedNode (DisplayMode.solid == DisplayMode.wireframe))
        (ImportedObj.mapData (applyModeToImportedNode true) e0.2))
        = ImportedObj.mapData (applyModeToImportedNode false)
          (ImportedObj.mapData (applyModeToImportedNode true) e0.2) from by rw [hsol]] at hd
    rw [htrav, htrav, List.map_map] at hd
    rcases List.mem_map.1 hd with ⟨d0, _, hdd⟩
    subst hdd
    rw [Function.comp_apply]
    by_cases hk : (d0.kind == ObjKind.mesh) = true
    · have hk1 : ((applyModeToImportedNode true d0).kind == ObjKind.mesh) = true := by
        rw [hkindimp]
        exact hk
      have hk2 : ((applyModeToImportedNode false
          (applyModeToImportedNode true d0)).kind == ObjKind.mesh) = true := by
        rw [hkindimp]
        exact hk1
      rw [hk2, Bool.not_true, Bool.false_or]
      rw [himpmesh false _ hk1, himpmesh true _ hk, List.map_map, List.all_eq_true]
      intro m hm
      rcases List.mem_map.1 hm with ⟨m0, _, hmm⟩
      subst hmm
      exact hmatprop m0 none rfl
    · have hk0 : (d0.kind == ObjKind.mesh) = false := by simpa using hk
      rw [himpnot true d0 hk0, himpnot false d0 hk0, hk0]
      rfl

/-- C4 counterexample to the claim as stated: an imported mesh whose
material color is red is not restored to red by a wireframe/solid round
trip — the color ends at the default `PRIMITIVE_COLOR`. -/
theorem claim_C4_counterexample :
    ((mapGet wid1 (applyDisplayMode DisplayMode.solid
        (applyDisplayMode DisplayMode.wireframe ([] : MapL (ObjData ℚ)) wImpRed).1
        (applyDisplayMode DisplayMode.wireframe ([] : MapL (ObjData ℚ)) wImpRed).2).2).map
      (fun o => o.rootData.matsList.map Material.color)) = some [some PRIMITIVE_COLOR] ∧
    wMatRed.color = some 0xff0000 ∧ (0xff0000 : Nat) ≠ PRIMITIVE_COLOR := by
  refine ⟨by decide, by decide, by decide⟩


/-- C5 (amended): with the toggle off in solid mode the edge group is
empty; wireframe forces edges for every geometry-bearing mesh of either
registry (primitive or imported) regardless of toggle and selection; with
the toggle on in solid mode the count is nonzero when there is no
(non-light) selection, or when the selection resolves to a registered
mesh with geometry in the matching registry (again either registry) —
but a selection naming an id absent from the corresponding registry
yields zero children. -/
theorem claim_C5_polygon_edge_overlay :
    (∀ (selId : Option String) (selPrim selLight : Bool)
        (p : MapL (ObjData ℚ)) (i : MapL (ImportedObj ℚ)),
      updatePolygonEdgesDisplay DisplayMode.solid false selId selPrim selLight p i = []) ∧
    (∀ (tog : Bool) (selId : Option String) (selPrim selLight : Bool)
        (p : MapL (ObjData ℚ)) (i : MapL (ImportedObj ℚ)) (e : String × ObjData ℚ),
      e ∈ p → e.2.geometry.isSome = true →
      updatePolygonEdgesDisplay DisplayMode.wireframe tog selId selPrim selLight p i ≠ []) ∧
    (∀ (p : MapL (ObjData ℚ)) (i : MapL (ImportedObj ℚ)) (e : String × ObjData ℚ),
      e ∈ p → e.2.geometry.isSome = true →
      updatePolygonEdgesDisplay DisplayMode.solid true none false false p i ≠ []) ∧
    (∀ (p : MapL (ObjData ℚ)) (i : MapL (ImportedObj ℚ)) (sid : String) (d : ObjData ℚ),
      mapGet sid p = some d → d.geometry.isSome = true →
      updatePolygonEdgesDisplay DisplayMode.solid true (some sid) true false p i ≠ []) ∧
    (∀ (p : MapL (ObjData ℚ)) (i : MapL (ImportedObj ℚ)) (sid : String),
      mapGet sid p = none →
      updatePolygonEdgesDisplay DisplayMode.solid true (some sid) true false p i = []) ∧
    (∀ (p : MapL (ObjData ℚ)) (i : MapL (ImportedObj ℚ)) (sid : String),
      mapGet sid i = none →
      updatePolygonEdgesDisplay DisplayMode.solid true (some sid) false false p i = []) ∧
    (∀ (tog : Bool) (selId : Option String) (selPrim selLight : Bool)
        (p : MapL (ObjData ℚ)) (i : MapL (ImportedObj ℚ)) (e : String × ImportedObj ℚ)
        (d : ObjData ℚ),
      e ∈ i → d ∈ e.2.traverseData → (d.kind == ObjKind.mesh) = true →
      d.geometry.isSome = true →
      updatePolygonEdgesDisplay DisplayMode.wireframe tog selId selPrim selLight p i ≠ []) ∧
    (∀ (p : MapL (ObjData ℚ)) (i : MapL (ImportedObj ℚ)) (e : String × ImportedObj ℚ)
        (d : ObjData ℚ),
      e ∈ i → d ∈ e.2.traverseData → (d.kind == ObjKind.mesh) = true →
      d.geometry.isSome = true →
      updatePolygonEdgesDisplay DisplayMode.solid true none false false p i ≠ []) ∧
    (∀ (p : MapL (ObjData ℚ)) (i : MapL (ImportedObj ℚ)) (sid : String)
        (o : ImportedObj ℚ) (d : ObjData ℚ),
      mapGet sid i = some o → d ∈ o.traverseData → (d.kind == ObjKind.mesh) = true →
      d.geometry.isSome = true →
      updatePolygonEdgesDisplay DisplayMode.solid true (some sid) false false p i ≠ []) := by
  have haddne : ∀ (d : ObjData ℚ) (c : Nat) (w : Bool) (t : Nat),
      d.geometry.isSome = true → addEdgeLinesForMesh d c w t ≠ [] := by
    intro d c w t hg
    rcases Option.isSome_iff_exists.1 hg with ⟨geo, hgeo⟩
    rw [addEdgeLinesForMesh, hgeo]
    intro hnil
    cases hnil
  have himpmem : ∀ (o : ImportedObj ℚ) (c : Nat) (d : ObjData ℚ),
      d ∈ o.traverseData → (d.kind == ObjKind.mesh) = true →
      d.geometry.isSome = true →
      (⟨d.name, 0, true, c⟩ : EdgeLine) ∈ importedEdgeLines o c := by
    intro o c d hd hk hg
    rcases Option.isSome_iff_exists.1 hg with ⟨geo, hgeo⟩
    rw [importedEdgeLines, List.mem_flatMap]
    refine ⟨d, hd, ?_⟩
    rw [if_pos hk, addEdgeLinesForMesh, hgeo]
    simp
  refine ⟨?_, ?_, ?_, ?_, ?_, ?_, ?_, ?_, ?_⟩
  · intro selId selPrim selLight p i
    rfl
  · intro tog selId selPrim selLight p i e he hg
    have hred : updatePolygonEdgesDisplay DisplayMode.wireframe tog selId selPrim selLight p i
        = p.flatMap (fun e => addEdgeLinesForMesh e.2 WIREFRAME_COLOR false
            EDGE_THRESHOLD_ANGLE)
          ++ i.flatMap (fun e => importedEdgeLines e.2 WIREFRAME_COLOR) := rfl
    rw [hred]
    rcases Option.isSome_iff_exists.1 hg with ⟨geo, hgeo⟩
    have hmem : (⟨e.2.name, EDGE_THRESHOLD_ANGLE, false, WIREFRAME_COLOR⟩ : EdgeLine)
        ∈ p.flatMap (fun e => addEdgeLinesForMesh e.2 WIREFRAME_COLOR false
            EDGE_THRESHOLD_ANGLE) := by
      rw [List.mem_flatMap]
      refine ⟨e, he, ?_⟩
      rw [addEdgeLinesForMesh, hgeo]
      simp
    exact List.ne_nil_of_mem (List.mem_append_left _ hmem)
  · intro p i e he hg
    have hred : updatePolygonEdgesDisplay DisplayMode.solid true none false false p i
        = p.flatMap (fun e => addEdgeLinesForMesh e.2 POLYGON_EDGE_COLOR false
            EDGE_THRESHOLD_ANGLE)
          ++ i.flatMap (fun e => importedEdgeLines e.2 POLYGON_EDGE_COLOR) := rfl
    rw [hred]
    rcases Option.isSome_iff_exists.1 hg with ⟨geo, hgeo⟩
    have hmem : (⟨e.2.name, EDGE_THRESHOLD_ANGLE, false, POLYGON_EDGE_COLOR⟩ : EdgeLine)
        ∈ p.flatMap (fun e => addEdgeLinesForMesh e.2 POLYGON_EDGE_COLOR false
            EDGE_THRESHOLD_ANGLE) := by
      rw [List.mem_flatMap]
      refine ⟨e, he, ?_⟩
      rw [addEdgeLinesForMesh, hgeo]
      simp
    exact List.ne_nil_of_mem (List.mem_append_left _ hmem)
  · intro p i sid d hget hg
    have hred : updatePolygonEdgesDisplay DisplayMode.solid true (some sid) true false p i
        = (match mapGet sid p with
           | some d => addEdgeLinesForMesh d POLYGON_EDGE_COLOR false EDGE_THRESHOLD_ANGLE
           | none => []) := by
      unfold updatePolygonEdgesDisplay
      dsimp only
      cases mapGet sid p <;> rfl
    rw [hred, hget]
    exact haddne d POLYGON_EDGE_COLOR false EDGE_THRESHOLD_ANGLE hg
  · intro p i sid hget
    have hred : updatePolygonEdgesDisplay DisplayMode.solid true (some sid) true false p i
        = (match mapGet sid p with
           | some d => addEdgeLinesForMesh d POLYGON_EDGE_COLOR false EDGE_THRESHOLD_ANGLE
           | none => []) := by
      unfold updatePolygonEdgesDisplay
      dsimp only
      cases mapGet sid p <;> rfl
    rw [hred, hget]
  · intro p i sid hget
    have hred : updatePolygonEdgesDisplay DisplayMode.solid true (some sid) false false p i
        = (match mapGet sid i with
           | some o => importedEdgeLines o POLYGON_EDGE_COLOR
           | none => []) := by
      unfold updatePolygonEdgesDisplay
      dsimp only
      cases mapGet sid i <;> rfl
    rw [hred, hget]
  · intro tog selId selPrim selLight p i e d he hd hk hg
    have hred : updatePolygonEdgesDisplay DisplayMode.wireframe tog selId selPrim selLight p i
        = p.flatMap (fun e => addEdgeLinesForMesh e.2 WIREFRAME_COLOR false
            EDGE_THRESHOLD_ANGLE)
          ++ i.flatMap (fun e => importedEdgeLines e.2 WIREFRAME_COLOR) := rfl
    rw [hred]
    have hmem : (⟨d.name, 0, true, WIREFRAME_COLOR⟩ : EdgeLine)
        ∈ i.flatMap (fun e => importedEdgeLines e.2 WIREFRAME_COLOR) :=
      List.mem_flatMap.2 ⟨e, he, himpmem e.2 WIREFRAME_COLOR d hd hk hg⟩
    exact List.ne_nil_of_mem (List.mem_append_right _ hmem)
  · intro p i e d he hd hk hg
    have hred : updatePolygonEdgesDisplay DisplayMode.solid true none false false p i
        = p.flatMap (fun e => addEdgeLinesForMesh e.2 POLYGON_EDGE_COLOR false
            EDGE_THRESHOLD_ANGLE)
          ++ i.flatMap (fun e => importedEdgeLines e.2 POLYGON_EDGE_COLOR) := rfl
    rw [hred]
    have hmem : (⟨d.name, 0, true, POLYGON_EDGE_COLOR⟩ : EdgeLine)
        ∈ i.flatMap (fun e => importedEdgeLines e.2 POLYGON_EDGE_COLOR) :=
      List.mem_flatMap.2 ⟨e, he, himpmem e.2 POLYGON_EDGE_COLOR d hd hk hg⟩
    exact List.ne_nil_of_mem (List.mem_append_right _ hmem)
  · intro p i sid o d hget hd hk hg
    have hred : updatePolygonEdgesDisplay DisplayMode.solid true (some sid) false false p i
        = (match mapGet sid i with
           | some o => importedEdgeLines o POLYGON_EDGE_COLOR
           | none => []) := by
      unfold updatePolygonEdgesDisplay
      dsimp only
      cases mapGet sid i <;> rfl
    rw [hred, hget]
    exact List.ne_nil_of_mem (himpmem o POLYGON_EDGE_COLOR d hd hk hg)

/-- C5 counterexample to the claim as stated: in solid mode with the
toggle on, a registry holding one mesh but a selection naming an absent
primitive id yields an empty edge group, not a nonzero count. -/
theorem claim_C5_counterexample :
    updatePolygonEdgesDisplay DisplayMode.solid true (some wid2) true false
        [(wid1, makePrimitiveMesh wid1 PrimitiveType.box)] ([] : MapL (ImportedObj ℚ))
      = [] ∧
    mapGet wid2 ([(wid1, makePrimitiveMesh wid1 PrimitiveType.box)] : MapL (ObjData ℚ))
      = none := by
  refine ⟨by decide, by decide⟩

/-- C5 witness: on a one-mesh primitive registry and on a one-mesh
imported registry, the claimed observations that survive correction. -/
theorem claim_C5_witness :
    updatePolygonEdgesDisplay DisplayMode.solid false none false false
        [(wid1, makePrimitiveMesh wid1 PrimitiveType.box)]
        ([] : MapL (ImportedObj ℚ)) = [] ∧
    updatePolygonEdgesDisplay DisplayMode.solid true none false false
        [(wid1, makePrimitiveMesh wid1 PrimitiveType.box)]
        ([] : MapL (ImportedObj ℚ)) ≠ [] ∧
    updatePolygonEdgesDisplay DisplayMode.wireframe false none false false
        [(wid1, makePrimitiveMesh wid1 PrimitiveType.box)]
        ([] : MapL (ImportedObj ℚ)) ≠ [] ∧
    updatePolygonEdgesDisplay DisplayMode.wireframe false none false false
        ([] : MapL (ObjData ℚ)) wImpRed ≠ [] ∧
    updatePolygonEdgesDisplay DisplayMode.solid true none false false
        ([] : MapL (ObjData ℚ)) wImpRed ≠ [] ∧
    updatePolygonEdgesDisplay DisplayMode.solid true (some wid1) false false
        ([] : MapL (ObjData ℚ)) wImpRed ≠ [] :=
  let obj : ImportedObj ℚ :=
    { rootData :=
        { kind := ObjKind.mesh
          name := wid1
          material := some (MatSlot.single wMatRed)
          geometry := some (Geometry.importedGeo 0)
          position := ⟨0, 0, 0⟩
          rotation := ⟨0, 0, 0⟩
          scaleV := ⟨1, 1, 1⟩
          localBounds := none }
      descended := [] }
  ⟨claim_C5_polygon_edge_overlay.1 none false false _ _,
   claim_C5_polygon_edge_overlay.2.2.1 _ []
     (wid1, makePrimitiveMesh wid1 PrimitiveType.box) (by decide) (by decide),
   claim_C5_polygon_edge_overlay.2.1 false none false false _ []
     (wid1, makePrimitiveMesh wid1 PrimitiveType.box) (by decide) (by decide),
   claim_C5_polygon_edge_overlay.2.2.2.2.2.2.1 false none false false []
     wImpRed (wid1, obj) obj.rootData (by decide) (by decide) (by decide) (by decide),
   claim_C5_polygon_edge_overlay.2.2.2.2.2.2.2.1 [] wImpRed (wid1, obj) obj.rootData
     (by decide) (by decide) (by decide) (by decide),
   claim_C5_polygon_edge_overlay.2.2.2.2.2.2.2.2 [] wImpRed wid1 obj obj.rootData
     (by decide) (by decide) (by decide) (by decide)⟩


/-- C6: with a selected primitive whose document node is found, translate
emits the renderable position with that primitive kind's ground offset
subtracted on y (x and z unchanged); rotate emits the gizmo radians
multiplied by 180/π per axis; scale emits the raw scale vector.  With a
selected light, translate emits the raw position while rotate and scale
emit nothing. -/
theorem claim_C6_gizmo_emission (nodes : List (SceneNode ℝ)) (obj : ObjData ℝ)
    (id : String) (node : SceneNode ℝ)
    (hfind : nodes.find? (fun n => n.id == id) = some node) :
    (emitTransformChange (180 / Real.pi) nodes (some obj) (some id)
        (some GizmoMode.translate) true false
      = some (EmitIntent.updateNodePosition id
          ⟨obj.position.x, obj.position.y - getPrimitiveYOffset node.primitive,
            obj.position.z⟩)) ∧
    (emitTransformChange (180 / Real.pi) nodes (some obj) (some id)
        (some GizmoMode.rotate) true false
      = some (EmitIntent.updateNodeRotation id
          ⟨obj.rotation.x * (180 / Real.pi), obj.rotation.y * (180 / Real.pi),
            obj.rotation.z * (180 / Real.pi)⟩)) ∧
    (emitTransformChange (180 / Real.pi) nodes (some obj) (some id)
        (some GizmoMode.scale) true false
      = some (EmitIntent.updateNodeScale id
          ⟨obj.scaleV.x, obj.scaleV.y, obj.scaleV.z⟩)) ∧
    (emitTransformChange (180 / Real.pi) nodes (some obj) (some id)
        (some GizmoMode.translate) false true
      = some (EmitIntent.updateLightPosition id
          ⟨obj.position.x, obj.position.y, obj.position.z⟩)) ∧
    (emitTransformChange (180 / Real.pi) nodes (some obj) (some id)
        (some GizmoMode.rotate) false true = none) ∧
    (emitTransformChange (180 / Real.pi) nodes (some obj) (some id)
        (some GizmoMode.scale) false true = none) := by
  refine ⟨?_, rfl, rfl, rfl, rfl, rfl⟩
  unfold emitTransformChange
  dsimp only
  rw [hfind]
  rfl

/-- C6 witness: the translate emission at a concrete torus node. -/
theorem claim_C6_witness :
    ([wNodeR].find? (fun n => n.id == wid1) = some wNodeR) ∧
    (emitTransformChange (180 / Real.pi) [wNodeR] (some wObjR) (some wid1)
        (some GizmoMode.translate) true false
      = some (EmitIntent.updateNodePosition wid1
          ⟨wObjR.position.x, wObjR.position.y - getPrimitiveYOffset wNodeR.primitive,
            wObjR.position.z⟩)) :=
  ⟨rfl, (claim_C6_gizmo_emission [wNodeR] wObjR wid1 wNodeR rfl).1⟩


section ImportGuardLemmas

/-- Every event of a removal loop is a selection clear, a null emission,
or a dispose. -/
theorem removeStale_trace_shapes {β γ : Type} (rg : String → γ → γ)
    (dispose : String → SyncEvent) (cs : Bool) (keep : List String)
    (entries : List (String × β)) (acc : RemovalAcc β γ) (ev : SyncEvent)
    (hmem : ev ∈ (removeStaleEntries rg dispose cs keep entries acc).2) :
    ev = SyncEvent.selectSet none ∨ ev = SyncEvent.emitSelect none ∨
      ∃ i, ev = dispose i := by
  have hshape : ∀ (id : String) (sel : SelState),
      (clearSelectionIfMatches id sel).2 = [] ∨
      (clearSelectionIfMatches id sel).2
        = [SyncEvent.selectSet none, SyncEvent.emitSelect none] := by
    intro id sel
    unfold clearSelectionIfMatches
    split
    · right; rfl
    · left; rfl
  induction entries generalizing acc with
  | nil => cases hmem
  | cons e rest ih =>
    obtain ⟨id, v⟩ := e
    rw [removeStaleEntries] at hmem
    by_cases hk : keep.contains id = true
    · rw [if_pos hk] at hmem
      exact ih _ hmem
    · rw [if_neg hk] at hmem
      dsimp only at hmem
      rcases List.mem_append.1 hmem with h1 | h1
      · cases hcs : cs with
        | false =>
          rw [hcs] at h1
          simp only [Bool.false_eq_true, if_false] at h1
          cases h1
        | true =>
          rw [hcs] at h1
          simp only [if_true] at h1
          rcases hshape id acc.sel with he | he <;> rw [he] at h1
          · cases h1
          · rcases List.mem_cons.1 h1 with h2 | h2
            · exact Or.inl h2
            · rcases List.mem_cons.1 h2 with h3 | h3
              · exact Or.inr (Or.inl h3)
              · cases h3
      · rcases List.mem_cons.1 h1 with h2 | h2
        · exact Or.inr (Or.inr ⟨id, h2⟩)
        · exact ih _ h2

end ImportGuardLemmas

/-- C3 (amended): the re-entrancy guard makes a second invocation of
`syncImportedAssets`, arriving while a prior one is mid-decode, a complete
no-op — it starts no load (in particular no duplicate load for an
in-flight asset id) but, contrary to the claim, it also processes no
removals: the state is returned unchanged with an empty trace.  When the
guard passes, an asset id already in the in-flight set never has a load
started for it. -/
theorem claim_C3_import_reentrancy :
    (∀ (decode : ImportedAsset → Option (ImportedObj ℚ)) (props : Props ℚ)
        (st : VState ℚ),
      st.isSyncingImports = true →
      syncImportedAssets decode props st = (st, [])) ∧
    (∀ (decode : ImportedAsset → Option (ImportedObj ℚ)) (props : Props ℚ)
        (st : VState ℚ) (id : String),
      st.isSyncingImports = false → id ∈ st.loadingImports →
      SyncEvent.startLoad id ∉ (syncImportedAssets decode props st).2) := by
  constructor
  · intro decode props st h
    unfold syncImportedAssets
    rw [h]
    simp only [if_true]
  · intro decode props st id h hin
    unfold syncImportedAssets
    rw [h]
    simp only [Bool.false_eq_true, if_false]
    intro hmem
    rcases List.mem_append.1 hmem with hh | hh
    · rcases removeStale_trace_shapes _ _ _ _ _ _ _ hh with h1 | h1 | ⟨i, h1⟩
      · cases h1
      · cases h1
      · cases h1
    · refine importLoadLoop_no_restart decode props props.importedAssets _ id ?_ hh
      split
      · rw [refresh_loadingImports]
        exact hin
      · exact hin

/-- C3 counterexample to the claim as stated: with the re-entrancy flag
set, a stale registered asset (absent from the asset list) survives the
second invocation untouched — it is not removed promptly. -/
theorem claim_C3_counterexample :
    wPropsEmpty.importedAssets = [] ∧
    mapHas wid1 wStateBusy.importedObjects = true ∧
    syncImportedAssets decode0 wPropsEmpty wStateBusy = (wStateBusy, []) ∧
    mapHas wid1 (syncImportedAssets decode0 wPropsEmpty wStateBusy).1.importedObjects
      = true :=
  ⟨rfl, by decide, rfl, by decide⟩

/-- C3 witness: the guard no-op on the concrete busy state, and the
no-restart guarantee on a state with a load in flight. -/
theorem claim_C3_witness :
    (wStateBusy.isSyncingImports = true ∧
      syncImportedAssets decode0 wPropsEmpty wStateBusy = (wStateBusy, [])) ∧
    (({ initialVState with loadingImports := [wid1] } : VState ℚ).isSyncingImports
        = false ∧
      wid1 ∈ ({ initialVState with loadingImports := [wid1] } : VState ℚ).loadingImports ∧
      SyncEvent.startLoad wid1 ∉
        (syncImportedAssets decode0 wPropsEmpty
          { initialVState with loadingImports := [wid1] }).2) :=
  ⟨⟨rfl, claim_C3_import_reentrancy.1 decode0 wPropsEmpty wStateBusy rfl⟩,
   ⟨rfl, by decide,
    claim_C3_import_reentrancy.2 decode0 wPropsEmpty
      { initialVState with loadingImports := [wid1] } wid1 rfl (by decide)⟩⟩


section C2Lemmas

variable {α : Type} [LinearOrderedField α]

theorem mapKeys_length {β : Type} (m : MapL β) : (mapKeys m).length = m.length :=
  List.length_map _ _

theorem mem_or_iff_found {K R : List String} {id k : String} (hid : id ∈ K) :
    (k ∈ K ∨ k ∈ R) ↔ (k ∈ K ∨ k ∈ id :: R) := by
  simp only [List.mem_cons]
  constructor
  · rintro (h | h)
    · exact Or.inl h
    · exact Or.inr (Or.inr h)
  · rintro (h | h | h)
    · exact Or.inl h
    · exact Or.inl (h ▸ hid)
    · exact Or.inr h

theorem mem_or_iff_created {K R : List String} {id k : String} :
    (k ∈ K ++ [id] ∨ k ∈ R) ↔ (k ∈ K ∨ k ∈ id :: R) := by
  simp only [List.mem_append, List.mem_singleton, List.mem_cons]
  tauto

/-- The display-refresh and reselection tail of `syncPrimitiveNodes` keeps
the primitive-registry keys. -/
theorem syncPrim_tail_keys (deg2rad : α) (props : Props α) (stMid : VState α) :
    mapKeys (reselectPrimitive (refreshSceneDisplay props
        { (createUpdatePrims deg2rad props.sceneData.nodes stMid).1 with
          polygonCountDirty := true })).1.primitiveMeshes
      = mapKeys (createUpdatePrims deg2rad props.sceneData.nodes stMid).1.primitiveMeshes := by
  rw [reselectPrimitive_primMeshes, refresh_primKeys]

/-- A registry key is present after the light creation loop iff it was
present before or belongs to a processed light (for both light
registries). -/
theorem createUpdateLights_keys (lights : List (LightNode α)) (st : VState α)
    (k : String) :
    (k ∈ mapKeys (createUpdateLights lights st).1.lightObjects
      ↔ k ∈ mapKeys st.lightObjects ∨ k ∈ lights.map LightNode.id) ∧
    (k ∈ mapKeys (createUpdateLights lights st).1.sceneLights
      ↔ k ∈ mapKeys st.sceneLights ∨ k ∈ lights.map LightNode.id) := by
  induction lights generalizing st with
  | nil => simp [createUpdateLights]
  | cons light rest ih =>
    simp only [createUpdateLights, List.map_cons]
    cases hg : mapGet light.id st.lightObjects with
    | some obj =>
      have hhasLO : mapHas light.id st.lightObjects = true := by simp [mapHas, hg]
      have hidLO : light.id ∈ mapKeys st.lightObjects := mapHas_iff_mem.1 hhasLO
      dsimp only
      cases hg2 : mapGet light.id st.sceneLights with
      | some tl =>
        have hhasSL : mapHas light.id st.sceneLights = true := by simp [mapHas, hg2]
        have hidSL : light.id ∈ mapKeys st.sceneLights := mapHas_iff_mem.1 hhasSL
        dsimp only
        constructor
        · rw [(ih _).1]
          dsimp only
          rw [mapKeys_mapSet_of_has hhasLO]
          exact mem_or_iff_found hidLO
        · rw [(ih _).2]
          dsimp only
          rw [mapKeys_mapSet_of_has hhasSL]
          exact mem_or_iff_found hidSL
      | none =>
        have hhasSL : mapHas light.id st.sceneLights = false := by simp [mapHas, hg2]
        dsimp only
        constructor
        · rw [(ih _).1]
          dsimp only
          rw [mapKeys_mapSet_of_has hhasLO]
          exact mem_or_iff_found hidLO
        · rw [(ih _).2]
          dsimp only
          have h1 := @mapKeys_mapSet_of_not_has (DirLight α) light.id
            ⟨0xffffff, 1, false, ⟨0, 1, 0⟩, ⟨0, 0, 0⟩⟩ st.sceneLights hhasSL
          have hhas2 : mapHas light.id (mapSet light.id
              (⟨0xffffff, 1, false, ⟨0, 1, 0⟩, ⟨0, 0, 0⟩⟩ : DirLight α)
              st.sceneLights) = true := by
            rw [mapHas_iff_mem, h1]
            simp
          rw [mapKeys_mapSet_of_has hhas2, h1]
          exact mem_or_iff_created
    | none =>
      have hhasLO : mapHas light.id st.lightObjects = false := by simp [mapHas, hg]
      have h1 := @mapKeys_mapSet_of_not_has (ObjData α) light.id
        (makeLightBillboard light.id) st.lightObjects hhasLO
      have hhas2 : mapHas light.id (mapSet light.id (makeLightBillboard light.id)
          st.lightObjects) = true := by
        rw [mapHas_iff_mem, h1]
        simp
      dsimp only
      cases hg2 : mapGet light.id st.sceneLights with
      | some tl =>
        have hhasSL : mapHas light.id st.sceneLights = true := by simp [mapHas, hg2]
        have hidSL : light.id ∈ mapKeys st.sceneLights := mapHas_iff_mem.1 hhasSL
        dsimp only
        constructor
        · rw [(ih _).1]
          dsimp only
          rw [mapKeys_mapSet_of_has hhas2, h1]
          exact mem_or_iff_created
        · rw [(ih _).2]
          dsimp only
          rw [mapKeys_mapSet_of_has hhasSL]
          exact mem_or_iff_found hidSL
      | none =>
        have hhasSL : mapHas light.id st.sceneLights = false := by simp [mapHas, hg2]
        dsimp only
        constructor
        · rw [(ih _).1]
          dsimp only
          rw [mapKeys_mapSet_of_has hhas2, h1]
          exact mem_or_iff_created
        · rw [(ih _).2]
          dsimp only
          have h1s := @mapKeys_mapSet_of_not_has (DirLight α) light.id
            ⟨0xffffff, 1, false, ⟨0, 1, 0⟩, ⟨0, 0, 0⟩⟩ st.sceneLights hhasSL
          have hhas2s : mapHas light.id (mapSet light.id
              (⟨0xffffff, 1, false, ⟨0, 1, 0⟩, ⟨0, 0, 0⟩⟩ : DirLight α)
              st.sceneLights) = true := by
            rw [mapHas_iff_mem, h1s]
            simp
          rw [mapKeys_mapSet_of_has hhas2s, h1s]
          exact mem_or_iff_created

/-- The light creation loop keeps both light registries duplicate-free. -/
theorem createUpdateLights_nodups (lights : List (LightNode α)) (st : VState α)
    (h1 : (mapKeys st.lightObjects).Nodup) (h2 : (mapKeys st.sceneLights).Nodup) :
    (mapKeys (createUpdateLights lights st).1.lightObjects).Nodup ∧
    (mapKeys (createUpdateLights lights st).1.sceneLights).Nodup := by
  induction lights generalizing st with
  | nil => exact ⟨h1, h2⟩
  | cons light rest ih =>
    simp only [createUpdateLights]
    cases hg : mapGet light.id st.lightObjects with
    | some obj =>
      dsimp only
      cases hg2 : mapGet light.id st.sceneLights with
      | some tl =>
        dsimp only
        exact ih _ (nodup_mapKeys_mapSet h1) (nodup_mapKeys_mapSet h2)
      | none =>
        dsimp only
        exact ih _ (nodup_mapKeys_mapSet h1)
          (nodup_mapKeys_mapSet (nodup_mapKeys_mapSet h2))
    | none =>
      dsimp only
      cases hg2 : mapGet light.id st.sceneLights with
      | some tl =>
        dsimp only
        exact ih _ (nodup_mapKeys_mapSet (nodup_mapKeys_mapSet h1))
          (nodup_mapKeys_mapSet h2)
      | none =>
        dsimp only
        exact ih _ (nodup_mapKeys_mapSet (nodup_mapKeys_mapSet h1))
          (nodup_mapKeys_mapSet (nodup_mapKeys_mapSet h2))

/-- When every document light already has both renderables, the light
creation loop emits no creation event. -/
theorem createUpdateLights_no_create (lights : List (LightNode α)) (st : VState α)
    (hall : ∀ l ∈ lights, mapHas l.id st.lightObjects = true ∧
      mapHas l.id st.sceneLights = true) :
    (createUpdateLights lights st).2 = [] := by
  induction lights generalizing st with
  | nil => rfl
  | cons light rest ih =>
    have hhasLO := (hall light (by simp)).1
    have hhasSL := (hall light (by simp)).2
    cases hg : mapGet light.id st.lightObjects with
    | none => rw [mapHas, hg] at hhasLO; cases hhasLO
    | some obj =>
      simp only [createUpdateLights, hg]
      cases hg2 : mapGet light.id st.sceneLights with
      | none => rw [mapHas, hg2] at hhasSL; cases hhasSL
      | some tl =>
        dsimp only
        simp only [List.nil_append]
        apply ih
        intro l hl
        constructor
        · rw [mapHas_iff_mem, mapKeys_mapSet_of_has hhasLO]
          exact mapHas_iff_mem.1 (hall l (by simp [hl])).1
        · rw [mapHas_iff_mem, mapKeys_mapSet_of_has hhasSL]
          exact mapHas_iff_mem.1 (hall l (by simp [hl])).2

/-- The material/display tail and light reselection keep both light
registries. -/
theorem syncLights_tail_regs (stC stU : VState α)
    (hLO : stU.lightObjects = stC.lightObjects)
    (hSL : stU.sceneLights = stC.sceneLights) :
    (reselectLight stU).1.lightObjects = stC.lightObjects ∧
    (reselectLight stU).1.sceneLights = stC.sceneLights := by
  have h := reselectLight_lightRegs stU
  exact ⟨h.1.trans hLO, h.2.trans hSL⟩

end C2Lemmas


section C2Lemmas2

variable {α : Type} [LinearOrderedField α]

/-- After `syncPrimitiveNodes`, the primitive-registry keys are a
permutation of the document node ids (assuming both are duplicate-free
going in). -/
theorem syncPrimitiveNodes_keysPerm (deg2rad : α) (props : Props α) (st : VState α)
    (hnd : (mapKeys st.primitiveMeshes).Nodup)
    (hndids : (props.sceneData.nodes.map SceneNode.id).Nodup) :
    List.Perm (mapKeys (syncPrimitiveNodes deg2rad props st).1.primitiveMeshes)
      (props.sceneData.nodes.map SceneNode.id) := by
  set rem := removeStaleEntries (fun id (g : List String) => g.filter (fun gid => gid != id))
      SyncEvent.disposedObj true (props.sceneData.nodes.map SceneNode.id) st.primitiveMeshes
      (⟨st.primitiveMeshes, st.primitiveGroupIds, st.selOf⟩ :
        RemovalAcc (ObjData α) (List String)) with hremdef
  set stMid := ({ st with
      primitiveMeshes := rem.1.reg
      primitiveGroupIds := rem.1.group }).setSel rem.1.sel with hmiddef
  have hreg : stMid.primitiveMeshes
      = st.primitiveMeshes.filter
          (fun e => (props.sceneData.nodes.map SceneNode.id).contains e.1) := by
    have h0 := removeStale_reg_self
      (fun id (g : List String) => g.filter (fun gid => gid != id))
      SyncEvent.disposedObj true (props.sceneData.nodes.map SceneNode.id)
      (⟨st.primitiveMeshes, st.primitiveGroupIds, st.selOf⟩ :
        RemovalAcc (ObjData α) (List String))
    dsimp only at h0
    rw [← hremdef] at h0
    exact h0
  have hkeys : mapKeys stMid.primitiveMeshes
      = (mapKeys st.primitiveMeshes).filter
          (fun k => (props.sceneData.nodes.map SceneNode.id).contains k) := by
    rw [hreg]
    exact mapKeys_filter_fst _ _
  have hnodupMid : (mapKeys stMid.primitiveMeshes).Nodup := by
    rw [hkeys]
    exact hnd.filter _
  have hsub : ∀ k ∈ mapKeys stMid.primitiveMeshes,
      k ∈ props.sceneData.nodes.map SceneNode.id := by
    intro k hk
    rw [hkeys] at hk
    have hp0 := List.of_mem_filter hk
    have hp : List.elem k (props.sceneData.nodes.map SceneNode.id) = true := hp0
    exact List.mem_of_elem_eq_true hp
  have hcrnodup := createUpdatePrims_keys_nodup deg2rad props.sceneData.nodes stMid hnodupMid
  have hperm : List.Perm
      (mapKeys (createUpdatePrims deg2rad props.sceneData.nodes stMid).1.primitiveMeshes)
      (props.sceneData.nodes.map SceneNode.id) := by
    rw [List.perm_ext_iff_of_nodup hcrnodup hndids]
    intro k
    rw [createUpdatePrims_keys_mem]
    constructor
    · rintro (h | h)
      · exact hsub k h
      · exact h
    · exact Or.inr
  have hfin : mapKeys (syncPrimitiveNodes deg2rad props st).1.primitiveMeshes
      = mapKeys (createUpdatePrims deg2rad props.sceneData.nodes stMid).1.primitiveMeshes :=
    syncPrim_tail_keys deg2rad props stMid
  rw [hfin]
  exact hperm

/-- After `syncLights`, the keys of both light registries are permutations
of the document light ids. -/
theorem syncLights_keysPerm (props : Props α) (st : VState α)
    (h1 : (mapKeys st.lightObjects).Nodup)
    (h2 : (mapKeys st.sceneLights).Nodup)
    (hndids : ((props.sceneData.lights.getD []).map LightNode.id).Nodup) :
    List.Perm (mapKeys (syncLights props st).1.lightObjects)
      ((props.sceneData.lights.getD []).map LightNode.id) ∧
    List.Perm (mapKeys (syncLights props st).1.sceneLights)
      ((props.sceneData.lights.getD []).map LightNode.id) := by
  set lights := props.sceneData.lights.getD [] with hldef
  set rem1 := removeStaleEntries (fun id (g : List String) => g.filter (fun gid => gid != id))
      SyncEvent.disposedObj true (lights.map LightNode.id) st.lightObjects
      (⟨st.lightObjects, st.lightGroupIds, st.selOf⟩ :
        RemovalAcc (ObjData α) (List String)) with hrem1def
  set st1 := ({ st with
      lightObjects := rem1.1.reg
      lightGroupIds := rem1.1.group }).setSel rem1.1.sel with hst1def
  set rem2 := removeStaleEntries
      (fun id (g : List SceneLightChild) => g.filter (fun c => c != SceneLightChild.dirChild id))
      SyncEvent.disposedSceneLight false (lights.map LightNode.id) st1.sceneLights
      (⟨st1.sceneLights, st1.sceneLightsChildren, st1.selOf⟩ :
        RemovalAcc (DirLight α) (List SceneLightChild)) with hrem2def
  set st2 := ({ st1 with
      sceneLights := rem2.1.reg
      sceneLightsChildren := rem2.1.group } : VState α) with hst2def
  have hregLO : st2.lightObjects
      = st.lightObjects.filter (fun e => (lights.map LightNode.id).contains e.1) := by
    have h0 := removeStale_reg_self
      (fun id (g : List String) => g.filter (fun gid => gid != id))
      SyncEvent.disposedObj true (lights.map LightNode.id)
      (⟨st.lightObjects, st.lightGroupIds, st.selOf⟩ :
        RemovalAcc (ObjData α) (List String))
    dsimp only at h0
    rw [← hrem1def] at h0
    exact h0
  have hregSL : st2.sceneLights
      = st.sceneLights.filter (fun e => (lights.map LightNode.id).contains e.1) := by
    have h0 := removeStale_reg_self
      (fun id (g : List SceneLightChild) => g.filter (fun c => c != SceneLightChild.dirChild id))
      SyncEvent.disposedSceneLight false (lights.map LightNode.id)
      (⟨st1.sceneLights, st1.sceneLightsChildren, st1.selOf⟩ :
        RemovalAcc (DirLight α) (List SceneLightChild))
    dsimp only at h0
    rw [← hrem2def] at h0
    exact h0
  have hkeysLO : mapKeys st2.lightObjects
      = (mapKeys st.lightObjects).filter
          (fun k => (lights.map LightNode.id).contains k) := by
    rw [hregLO]
    exact mapKeys_filter_fst _ _
  have hkeysSL : mapKeys st2.sceneLights
      = (mapKeys st.sceneLights).filter
          (fun k => (lights.map LightNode.id).contains k) := by
    rw [hregSL]
    exact mapKeys_filter_fst _ _
  have hnodupLO : (mapKeys st2.lightObjects).Nodup := by
    rw [hkeysLO]
    exact h1.filter _
  have hnodupSL : (mapKeys st2.sceneLights).Nodup := by
    rw [hkeysSL]
    exact h2.filter _
  have hsubLO : ∀ k ∈ mapKeys st2.lightObjects, k ∈ lights.map LightNode.id := by
    intro k hk
    rw [hkeysLO] at hk
    have hp0 := List.of_mem_filter hk
    have hp : List.elem k (lights.map LightNode.id) = true := hp0
    exact List.mem_of_elem_eq_true hp
  have hsubSL : ∀ k ∈ mapKeys st2.sceneLights, k ∈ lights.map LightNode.id := by
    intro k hk
    rw [hkeysSL] at hk
    have hp0 := List.of_mem_filter hk
    have hp : List.elem k (lights.map LightNode.id) = true := hp0
    exact List.mem_of_elem_eq_true hp
  have hcr := createUpdateLights_nodups lights st2 hnodupLO hnodupSL
  have hpermLO : List.Perm (mapKeys (createUpdateLights lights st2).1.lightObjects)
      (lights.map LightNode.id) := by
    rw [List.perm_ext_iff_of_nodup hcr.1 hndids]
    intro k
    rw [(createUpdateLights_keys lights st2 k).1]
    constructor
    · rintro (h | h)
      · exact hsubLO k h
      · exact h
    · exact Or.inr
  have hpermSL : List.Perm (mapKeys (createUpdateLights lights st2).1.sceneLights)
      (lights.map LightNode.id) := by
    rw [List.perm_ext_iff_of_nodup hcr.2 hndids]
    intro k
    rw [(createUpdateLights_keys lights st2 k).2]
    constructor
    · rintro (h | h)
      · exact hsubSL k h
      · exact h
    · exact Or.inr
  set cr := createUpdateLights lights st2 with hcrdef
  set r1 := applyMaterialsForLighting (decide (0 < lights.length)) cr.1.primitiveMeshes
      cr.1.importedObjects cr.1.sceneLightsChildren with hr1def
  set r2 := applyDisplayMode cr.1.displayMode r1.1 r1.2.1 with hr2def
  set st5 := ({ cr.1 with
      primitiveMeshes := r2.1
      importedObjects := r2.2
      sceneLightsChildren := r1.2.2 } : VState α) with hst5def
  have hfin1 : (syncLights props st).1.lightObjects = cr.1.lightObjects :=
    (syncLights_tail_regs cr.1 st5 rfl rfl).1
  have hfin2 : (syncLights props st).1.sceneLights = cr.1.sceneLights :=
    (syncLights_tail_regs cr.1 st5 rfl rfl).2
  constructor
  · rw [hfin1]
    exact hpermLO
  · rw [hfin2]
    exact hpermSL

end C2Lemmas2


section C2Lemmas3

variable {α : Type} [LinearOrderedField α]

/-- After the removal pass turned out to be a no-op, the rest of
`syncPrimitiveNodes` only re-emits selection writes when every document
node already has its renderable. -/
theorem syncPrim_tail_events (deg2rad : α) (props : Props α) (stMid stAny : VState α)
    (hhasMid : ∀ n ∈ props.sceneData.nodes, n.id ∈ mapKeys stMid.primitiveMeshes) :
    ∀ e ∈ (createUpdatePrims deg2rad props.sceneData.nodes stMid).2
        ++ (reselectPrimitive stAny).2,
      ∃ oid, e = SyncEvent.selectSet oid := by
  intro e he
  rcases List.mem_append.1 he with h | h
  · rw [createUpdatePrims_no_create deg2rad props.sceneData.nodes stMid
      (fun n hn => mapHas_iff_mem.2 (hhasMid n hn))] at h
    cases h
  · exact reselectPrimitive_events _ e h

/-- A `syncPrimitiveNodes` run on a state already reconciled with the
document performs no removal and no creation: its trace holds only
selection writes. -/
theorem syncPrim_settled_events (deg2rad : α) (props : Props α) (stX : VState α)
    (hsub : ∀ k ∈ mapKeys stX.primitiveMeshes,
      k ∈ props.sceneData.nodes.map SceneNode.id)
    (hhas : ∀ n ∈ props.sceneData.nodes, n.id ∈ mapKeys stX.primitiveMeshes) :
    ∀ e ∈ (syncPrimitiveNodes deg2rad props stX).2,
      ∃ oid, e = SyncEvent.selectSet oid := by
  intro e he
  have hrem : removeStaleEntries (fun id (g : List String) => g.filter (fun gid => gid != id))
      SyncEvent.disposedObj true (props.sceneData.nodes.map SceneNode.id)
      stX.primitiveMeshes
      (⟨stX.primitiveMeshes, stX.primitiveGroupIds, stX.selOf⟩ :
        RemovalAcc (ObjData α) (List String))
      = (⟨stX.primitiveMeshes, stX.primitiveGroupIds, stX.selOf⟩, []) :=
    removeStale_noop _ _ _ _ _ _ (fun k hk => List.elem_eq_true_of_mem (hsub k hk))
  unfold syncPrimitiveNodes at he
  dsimp only at he
  rw [hrem] at he
  exact syncPrim_tail_events deg2rad props stX _ hhas e he

/-- A `syncLights` run on a state already reconciled with the document
performs no removal and no creation: its trace holds only selection
writes. -/
theorem syncLights_settled_events (props : Props α) (stX : VState α)
    (hsubLO : ∀ k ∈ mapKeys stX.lightObjects,
      k ∈ (props.sceneData.lights.getD []).map LightNode.id)
    (hsubSL : ∀ k ∈ mapKeys stX.sceneLights,
      k ∈ (props.sceneData.lights.getD []).map LightNode.id)
    (hhas : ∀ l ∈ props.sceneData.lights.getD [],
      l.id ∈ mapKeys stX.lightObjects ∧ l.id ∈ mapKeys stX.sceneLights) :
    ∀ e ∈ (syncLights props stX).2, ∃ oid, e = SyncEvent.selectSet oid := by
  intro e he
  have hrem1 : removeStaleEntries (fun id (g : List String) => g.filter (fun gid => gid != id))
      SyncEvent.disposedObj true (((props.sceneData.lights.getD []).map LightNode.id))
      stX.lightObjects
      (⟨stX.lightObjects, stX.lightGroupIds, stX.selOf⟩ :
        RemovalAcc (ObjData α) (List String))
      = (⟨stX.lightObjects, stX.lightGroupIds, stX.selOf⟩, []) :=
    removeStale_noop _ _ _ _ _ _ (fun k hk => List.elem_eq_true_of_mem (hsubLO k hk))
  unfold syncLights at he
  dsimp only at he
  rw [hrem1] at he
  dsimp only [VState.setSel, VState.selOf] at he
  have hrem2 : removeStaleEntries
      (fun id (g : List SceneLightChild) =>
        g.filter (fun c => c != SceneLightChild.dirChild id))
      SyncEvent.disposedSceneLight false ((props.sceneData.lights.getD []).map LightNode.id)
      stX.sceneLights
      (⟨stX.sceneLights, stX.sceneLightsChildren,
        ⟨stX.selObj, stX.currentSelectedId, stX.isPrimitive, stX.isLight⟩⟩ :
        RemovalAcc (DirLight α) (List SceneLightChild))
      = (⟨stX.sceneLights, stX.sceneLightsChildren,
          ⟨stX.selObj, stX.currentSelectedId, stX.isPrimitive, stX.isLight⟩⟩, []) :=
    removeStale_noop _ _ _ _ _ _ (fun k hk => List.elem_eq_true_of_mem (hsubSL k hk))
  rw [hrem2] at he
  dsimp only at he
  rcases List.mem_append.1 he with h | h
  · rw [createUpdateLights_no_create (props.sceneData.lights.getD []) stX
      (fun l hl => ⟨mapHas_iff_mem.2 (hhas l hl).1, mapHas_iff_mem.2 (hhas l hl).2⟩)] at h
    cases h
  · exact reselectLight_events _ e h

end C2Lemmas3


/-- C2: with unique document ids and a duplicate-free registry going in,
one run of `syncPrimitiveNodes` leaves exactly one primitive renderable
per document node (registry size equals `nodes.length`) and one run of
`syncLights` leaves exactly one entry per document light in both light
registries; a second run of either pass on the unchanged document
disposes nothing and creates nothing — its trace holds only selection
writes. -/
theorem claim_C2_registry_reconciliation :
    (∀ (deg2rad : ℚ) (props : Props ℚ) (st : VState ℚ),
      (mapKeys st.primitiveMeshes).Nodup →
      (props.sceneData.nodes.map SceneNode.id).Nodup →
      (syncPrimitiveNodes deg2rad props st).1.primitiveMeshes.length
        = props.sceneData.nodes.length) ∧
    (∀ (props : Props ℚ) (st : VState ℚ),
      (mapKeys st.lightObjects).Nodup →
      (mapKeys st.sceneLights).Nodup →
      ((props.sceneData.lights.getD []).map LightNode.id).Nodup →
      (syncLights props st).1.lightObjects.length
          = (props.sceneData.lights.getD []).length ∧
        (syncLights props st).1.sceneLights.length
          = (props.sceneData.lights.getD []).length) ∧
    (∀ (deg2rad : ℚ) (props : Props ℚ) (st : VState ℚ),
      (mapKeys st.primitiveMeshes).Nodup →
      (props.sceneData.nodes.map SceneNode.id).Nodup →
      ∀ e ∈ (syncPrimitiveNodes deg2rad props
          (syncPrimitiveNodes deg2rad props st).1).2,
        ∃ oid, e = SyncEvent.selectSet oid) ∧
    (∀ (props : Props ℚ) (st : VState ℚ),
      (mapKeys st.lightObjects).Nodup →
      (mapKeys st.sceneLights).Nodup →
      ((props.sceneData.lights.getD []).map LightNode.id).Nodup →
      ∀ e ∈ (syncLights props (syncLights props st).1).2,
        ∃ oid, e = SyncEvent.selectSet oid) := by
  refine ⟨?_, ?_, ?_, ?_⟩
  · intro deg2rad props st hnd hndids
    have hperm := syncPrimitiveNodes_keysPerm deg2rad props st hnd hndids
    calc (syncPrimitiveNodes deg2rad props st).1.primitiveMeshes.length
        = (mapKeys (syncPrimitiveNodes deg2rad props st).1.primitiveMeshes).length :=
          (mapKeys_length _).symm
      _ = (props.sceneData.nodes.map SceneNode.id).length := hperm.length_eq
      _ = props.sceneData.nodes.length := List.length_map _ _
  · intro props st h1 h2 hndids
    have hperm := syncLights_keysPerm props st h1 h2 hndids
    constructor
    · calc (syncLights props st).1.lightObjects.length
          = (mapKeys (syncLights props st).1.lightObjects).length :=
            (mapKeys_length _).symm
        _ = ((props.sceneData.lights.getD []).map LightNode.id).length :=
            hperm.1.length_eq
        _ = (props.sceneData.lights.getD []).length := List.length_map _ _
    · calc (syncLights props st).1.sceneLights.length
          = (mapKeys (syncLights props st).1.sceneLights).length :=
            (mapKeys_length _).symm
        _ = ((props.sceneData.lights.getD []).map LightNode.id).length :=
            hperm.2.length_eq
        _ = (props.sceneData.lights.getD []).length := List.length_map _ _
  · intro deg2rad props st hnd hndids
    have hperm := syncPrimitiveNodes_keysPerm deg2rad props st hnd hndids
    exact syncPrim_settled_events deg2rad props _
      (fun k hk => hperm.mem_iff.1 hk)
      (fun n hn => hperm.mem_iff.2 (List.mem_map_of_mem _ hn))
  · intro props st h1 h2 hndids
    have hperm := syncLights_keysPerm props st h1 h2 hndids
    exact syncLights_settled_events props _
      (fun k hk => hperm.1.mem_iff.1 hk)
      (fun k hk => hperm.2.mem_iff.1 hk)
      (fun l hl => ⟨hperm.1.mem_iff.2 (List.mem_map_of_mem _ hl),
        hperm.2.mem_iff.2 (List.mem_map_of_mem _ hl)⟩)

/-- C2 witness: on a one-node, one-light document starting from the empty
registries, each registry ends with exactly one entry. -/
theorem claim_C2_witness :
    ((mapKeys initialVState.primitiveMeshes).Nodup ∧
      (wPropsOne.sceneData.nodes.map SceneNode.id).Nodup ∧
      (syncPrimitiveNodes 1 wPropsOne initialVState).1.primitiveMeshes.length
        = wPropsOne.sceneData.nodes.length) ∧
    ((mapKeys initialVState.lightObjects).Nodup ∧
      (mapKeys initialVState.sceneLights).Nodup ∧
      ((wPropsOne.sceneData.lights.getD []).map LightNode.id).Nodup ∧
      (syncLights wPropsOne initialVState).1.lightObjects.length
        = (wPropsOne.sceneData.lights.getD []).length) :=
  ⟨⟨by decide, by decide,
    claim_C2_registry_reconciliation.1 1 wPropsOne initialVState
      (by decide) (by decide)⟩,
   ⟨by decide, by decide, by decide,
    (claim_C2_registry_reconciliation.2.1 wPropsOne initialVState
      (by decide) (by decide) (by decide)).1⟩⟩


end Kairo
